import Mathlib

/-!
# rootston desktop/view core: a shallow embedding of `rootston/desktop.c`

Conventions of the embedding.

* C `double`/`float` values (positions, rotation, hit-test coordinates) are
  modelled by rationals: every finite floating-point value is a rational and the
  code only compares, copies, adds and halves them.
* C `int` is `Int`, `uint32_t` is `Nat`.  The conversions between them and from
  `double` to `int` are the functions `uint32_to_int`, `int_to_uint32` and
  `double_to_int`, which wrap at 32 bits as the compiled code does.
* Pointers to `roots_view`, `roots_output` and `wlr_output` are natural-number
  handles; `NULL` is `none`.
* The output layout, the shell callbacks of a view and the hit-test helpers of
  the surface tree are not part of `desktop.c`; they are parameters.
* Damage notifications to the renderer carry no state that `desktop.c` reads
  back and are left out.
-/

namespace Rootston

/-! ## Data model -/

/-- The record `struct wlr_box`. -/
structure wlr_box where
  x : Int
  y : Int
  width : Int
  height : Int
deriving DecidableEq, Repr

/-- A wire event sent to a surface: `wl_surface.enter` / `wl_surface.leave`
for the output with the given handle. -/
inductive surface_event where
  | enter (output : Nat)
  | leave (output : Nat)
deriving DecidableEq, Repr

/-- What `desktop.c` uses of `struct wlr_surface`: its handle, the size of its
current state, and the log of enter/leave events sent to it (oldest first). -/
structure wlr_surface where
  handle : Nat
  width : Int
  height : Int
  events : List surface_event
deriving DecidableEq, Repr

/-- The `saved` member of `struct roots_view`. -/
structure saved_geometry where
  x : ℚ
  y : ℚ
  rotation : ℚ
  width : Nat
  height : Nat
deriving DecidableEq, Repr

/-- The `pending_move_resize` member of `struct roots_view`. -/
structure pending_geometry where
  update_x : Bool
  update_y : Bool
  x : ℚ
  y : ℚ
  width : Nat
  height : Nat
deriving DecidableEq, Repr

/-- The shell kind of a view (`enum roots_view_type`); for a wl_shell view the
flag tells whether its shell surface is in the popup state. -/
inductive roots_view_type where
  | xdg_shell_v6
  | wl_shell (popup_state : Bool)
  | xwayland
deriving DecidableEq, Repr

/-- The record `struct roots_view`, without its callback table (see
`view_interface`) and its listeners. -/
structure roots_view where
  type : roots_view_type
  x : ℚ
  y : ℚ
  width : Nat
  height : Nat
  rotation : ℚ
  decorated : Bool
  border_width : Int
  titlebar_height : Int
  maximized : Bool
  fullscreen_output : Option Nat
  saved : saved_geometry
  pending_move_resize : pending_geometry
  wlr_surface : wlr_surface
deriving DecidableEq, Repr

/-- The optional shell callbacks of a view (`view->move`, `view->resize`,
`view->move_resize`, `view->maximize`, `view->set_fullscreen`).  They live in
the shell files, so they are arbitrary functions on the view record here. -/
structure view_interface where
  move : Option (roots_view → ℚ → ℚ → roots_view)
  resize : Option (roots_view → Nat → Nat → roots_view)
  move_resize : Option (roots_view → ℚ → ℚ → Nat → Nat → roots_view)
  maximize : Option (roots_view → Bool → roots_view)
  set_fullscreen : Option (roots_view → Bool → roots_view)

/-- The queries `desktop.c` makes to the output layout
(`wlr_output_layout_*`, `wlr_output_effective_resolution`).  A `none` output
argument is the C `NULL` reference. -/
structure wlr_output_layout where
  intersects : Option Nat → wlr_box → Bool
  output_at : ℚ → ℚ → Option Nat
  closest_point : Option Nat → ℚ → ℚ → ℚ × ℚ
  get_box : Option Nat → wlr_box
  get : Nat → Int × Int
  effective_resolution : Nat → Int × Int
  get_center_output : Option Nat

/-- The record `struct timespec`. -/
structure timespec where
  tv_sec : Int
  tv_nsec : Int
deriving DecidableEq, Repr

/-- What `view_center` reads of a seat: `seat->seat->last_event` and the
position of `seat->cursor->cursor`. -/
structure roots_seat where
  handle : Nat
  last_event : timespec
  cursor_x : ℚ
  cursor_y : ℚ
deriving DecidableEq, Repr

/-- The record `struct roots_output`: the output it binds and the view that is
fullscreen on it. -/
structure roots_output where
  wlr_output : Nat
  fullscreen_view : Option Nat
deriving DecidableEq, Repr

/-- The record `struct roots_desktop` together with the memory it points to:
`views` and `outputs` are the two lists (as handles, in list order),
`view` and `output` dereference a handle, `seats` is
`desktop->server->input->seats`. -/
structure roots_desktop where
  views : List Nat
  outputs : List Nat
  view : Nat → roots_view
  output : Nat → roots_output
  layout : wlr_output_layout
  seats : List roots_seat

/-- Conversion of a `double` to `int`: truncation toward zero.  When the
truncated value does not fit the 32 bits of an `int` the C standard leaves the
result open; the x86-64 conversion instruction gives `INT_MIN` then, and that is
the value taken here. -/
def double_to_int (q : ℚ) : Int :=
  let t := Int.tdiv q.num q.den
  if -2147483648 ≤ t ∧ t < 2147483648 then t else -2147483648

/-- Conversion of a `uint32_t` to `int`: the values from `2^31` on wrap to the
negative numbers (`4294967295` becomes `-1`).  A `uint32_t` is below `2^32`; a
natural number from `2^32` on is the value of no `uint32_t` and is left as it
is. -/
def uint32_to_int (n : Nat) : Int :=
  if 2147483648 ≤ n ∧ n < 4294967296 then (n : Int) - 4294967296 else (n : Int)

/-- Conversion of an `int` to `uint32_t`: a negative number wraps to the upper
half (`-1` becomes `4294967295`), any other number keeps its value.  An `int`
is at least `-2^31`, so the sum is not negative. -/
def int_to_uint32 (i : Int) : Nat :=
  if i < 0 then (i + 4294967296).toNat else i.toNat

/-! ## Geometry -/

/-- The function `view_get_box`. -/
def view_get_box (view : roots_view) : wlr_box :=
  { x := double_to_int view.x
    y := double_to_int view.y
    width := uint32_to_int view.width
    height := uint32_to_int view.height }

/-- The function `view_get_deco_box`. -/
def view_get_deco_box (view : roots_view) : wlr_box :=
  let box := view_get_box view
  if !view.decorated then box
  else
    { x := box.x - view.border_width
      y := box.y - (view.border_width + view.titlebar_height)
      width := box.width + view.border_width * 2
      height := box.height + (view.border_width * 2 + view.titlebar_height) }

/-- Modelled from the spec: the values of `enum roots_deco_part`, declared in
`rootston/view.h`; `NONE` is the empty set and every other part is one bit. -/
def ROOTS_DECO_PART_NONE : Nat := 0

/-- Modelled from the spec: the bit of the top border. -/
def ROOTS_DECO_PART_TOP_BORDER : Nat := 1

/-- Modelled from the spec: the bit of the bottom border. -/
def ROOTS_DECO_PART_BOTTOM_BORDER : Nat := 2

/-- Modelled from the spec: the bit of the left border. -/
def ROOTS_DECO_PART_LEFT_BORDER : Nat := 4

/-- Modelled from the spec: the bit of the right border. -/
def ROOTS_DECO_PART_RIGHT_BORDER : Nat := 8

/-- Modelled from the spec: the bit of the titlebar. -/
def ROOTS_DECO_PART_TITLEBAR : Nat := 16

/-- Whether the set of parts `parts` has the bit `part`. -/
def deco_has (parts part : Nat) : Bool := parts &&& part != 0

/-- The function `view_get_deco_part`. -/
def view_get_deco_part (view : roots_view) (sx sy : ℚ) : Nat :=
  if !view.decorated then ROOTS_DECO_PART_NONE
  else
    let sw : Int := view.wlr_surface.width
    let sh : Int := view.wlr_surface.height
    let bw : Int := view.border_width
    let titlebar_h : Int := view.titlebar_height
    if sx > 0 ∧ sx < (sw : ℚ) ∧ sy < 0 ∧ sy > ((-view.titlebar_height : Int) : ℚ) then
      ROOTS_DECO_PART_TITLEBAR
    else
      let parts : Nat := 0
      let parts :=
        if sy ≥ ((-(titlebar_h + bw) : Int) : ℚ) ∧ sy ≤ ((sh + bw : Int) : ℚ) then
          if sx < 0 ∧ sx > ((-bw : Int) : ℚ) then
            parts ||| ROOTS_DECO_PART_LEFT_BORDER
          else if sx > (sw : ℚ) ∧ sx < ((sw + bw : Int) : ℚ) then
            parts ||| ROOTS_DECO_PART_RIGHT_BORDER
          else parts
        else parts
      let parts :=
        if sx ≥ ((-bw : Int) : ℚ) ∧ sx ≤ ((sw + bw : Int) : ℚ) then
          if sy > (sh : ℚ) ∧ sy ≤ ((sh + bw : Int) : ℚ) then
            parts ||| ROOTS_DECO_PART_BOTTOM_BORDER
          else if sy ≥ ((-(titlebar_h + bw) : Int) : ℚ) ∧ sy < 0 then
            parts ||| ROOTS_DECO_PART_TOP_BORDER
          else parts
        else parts
      parts

/-! ## Output tracking -/

/-- The call `wlr_surface_send_enter`: one more enter event on the surface. -/
def wlr_surface_send_enter (surface : wlr_surface) (output : Nat) : wlr_surface :=
  { surface with events := surface.events ++ [surface_event.enter output] }

/-- The call `wlr_surface_send_leave`: one more leave event on the surface. -/
def wlr_surface_send_leave (surface : wlr_surface) (output : Nat) : wlr_surface :=
  { surface with events := surface.events ++ [surface_event.leave output] }

/-- The body of the loop of `view_update_output` for the binding `output`:
`box` is the current box of the view, `before` the optional earlier one. -/
def view_update_output_step (layout : wlr_output_layout) (before : Option wlr_box)
    (box : wlr_box) (surface : wlr_surface) (output : roots_output) : wlr_surface :=
  let intersected : Bool :=
    match before with
    | none => false
    | some b => layout.intersects (some output.wlr_output) b
  let intersects : Bool := layout.intersects (some output.wlr_output) box
  let surface :=
    if intersected && !intersects then wlr_surface_send_leave surface output.wlr_output
    else surface
  if !intersected && intersects then wlr_surface_send_enter surface output.wlr_output
  else surface

/-- The function `view_update_output`: for every output binding of the
desktop, in list order, compare the intersection before and now. -/
def view_update_output (d : roots_desktop) (view : roots_view) (before : Option wlr_box) :
    roots_view :=
  let box := view_get_box view
  { view with
    wlr_surface :=
      d.outputs.foldl
        (fun surface p => view_update_output_step d.layout before box surface (d.output p))
        view.wlr_surface }

/-! ## View operations -/

/-- The function `view_update_position`. -/
def view_update_position (view : roots_view) (x y : ℚ) : roots_view :=
  if view.x = x ∧ view.y = y then view
  else { view with x := x, y := y }

/-- The function `view_update_size`. -/
def view_update_size (view : roots_view) (width height : Nat) : roots_view :=
  if view.width = width ∧ view.height = height then view
  else { view with width := width, height := height }

/-- The function `view_move`. -/
def view_move (d : roots_desktop) (hk : view_interface) (view : roots_view) (x y : ℚ) :
    roots_view :=
  if view.x = x ∧ view.y = y then view
  else
    let before := view_get_box view
    let view :=
      match hk.move with
      | some f => f view x y
      | none => view_update_position view x y
    view_update_output d view (some before)

/-- The function `view_resize`. -/
def view_resize (d : roots_desktop) (hk : view_interface) (view : roots_view)
    (width height : Nat) : roots_view :=
  let before := view_get_box view
  let view :=
    match hk.resize with
    | some f => f view width height
    | none => view
  view_update_output d view (some before)

/-- The function `view_move_resize`. -/
def view_move_resize (d : roots_desktop) (hk : view_interface) (view : roots_view)
    (x y : ℚ) (width height : Nat) : roots_view :=
  let update_x : Bool := decide (x ≠ view.x)
  let update_y : Bool := decide (y ≠ view.y)
  if !update_x && !update_y then view_resize d hk view width height
  else
    match hk.move_resize with
    | some f => f view x y width height
    | none =>
      let view :=
        { view with
          pending_move_resize :=
            { update_x := update_x, update_y := update_y, x := x, y := y,
              width := width, height := height } }
      view_resize d hk view width height

/-- The function `view_get_output`. -/
def view_get_output (d : roots_desktop) (view : roots_view) : Option Nat :=
  let view_box := view_get_box view
  let p := d.layout.closest_point none
    (view.x + (view_box.width : ℚ) / 2) (view.y + (view_box.height : ℚ) / 2)
  d.layout.output_at p.1 p.2

/-- The function `view_rotate`. -/
def view_rotate (view : roots_view) (rotation : ℚ) : roots_view :=
  if view.rotation = rotation then view
  else { view with rotation := rotation }

/-- The function `view_maximize`. -/
def view_maximize (d : roots_desktop) (hk : view_interface) (view : roots_view)
    (maximized : Bool) : roots_view :=
  if view.maximized = maximized then view
  else
    let view :=
      match hk.maximize with
      | some f => f view maximized
      | none => view
    let view :=
      if !view.maximized && maximized then
        let view_box := view_get_box view
        let view :=
          { view with
            maximized := true
            saved :=
              { x := view.x, y := view.y, rotation := view.rotation,
                width := int_to_uint32 view_box.width, height := int_to_uint32 view_box.height } }
        let output := view_get_output d view
        let output_box := d.layout.get_box output
        let view := view_move_resize d hk view (output_box.x : ℚ) (output_box.y : ℚ)
          (int_to_uint32 output_box.width) (int_to_uint32 output_box.height)
        view_rotate view 0
      else view
    if view.maximized && !maximized then
      let view := { view with maximized := false }
      let view := view_move_resize d hk view view.saved.x view.saved.y
        view.saved.width view.saved.height
      view_rotate view view.saved.rotation
    else view

/-- The seat loop of `view_center`: `seat` starts as `NULL` and is replaced by
the candidate when it is `NULL` or when both its seconds and its nanoseconds
are greater than the candidate's. -/
def view_center_seat (seats : List roots_seat) : Option roots_seat :=
  seats.foldl
    (fun seat cand =>
      match seat with
      | none => some cand
      | some s =>
        if s.last_event.tv_sec > cand.last_event.tv_sec ∧
            s.last_event.tv_nsec > cand.last_event.tv_nsec then some cand
        else some s)
    none

/-- The function `view_center`: the returned flag is the C return value. -/
def view_center (d : roots_desktop) (hk : view_interface) (view : roots_view) :
    Bool × roots_view :=
  let box := view_get_box view
  match view_center_seat d.seats with
  | none => (false, view)
  | some seat =>
    match d.layout.output_at seat.cursor_x seat.cursor_y with
    | none => (false, view)
    | some output =>
      let l_output := d.layout.get output
      let res := d.layout.effective_resolution output
      let view_x : ℚ := ((res.1 - box.width : Int) : ℚ) / 2 + (l_output.1 : ℚ)
      let view_y : ℚ := ((res.2 - box.height : Int) : ℚ) / 2 + (l_output.2 : ℚ)
      (true, view_move d hk view view_x view_y)

/-- The function `view_setup`; giving the seats focus does not touch the view
record and is left to the input subsystem. -/
def view_setup (d : roots_desktop) (hk : view_interface) (view : roots_view) : roots_view :=
  let view := (view_center d hk view).2
  view_update_output d view none

/-! ## Desktop: output bindings, fullscreen, hit test -/

/-- The function `desktop_output_from_wlr_output`: the first binding of the
list whose output is `wlr_output` (a `NULL` output matches none). -/
def desktop_output_from_wlr_output (d : roots_desktop) (wlr_output : Option Nat) :
    Option Nat :=
  d.outputs.find? (fun p => decide (some (d.output p).wlr_output = wlr_output))

/-- Write the record `view` back at the handle `vp`. -/
def store_view (d : roots_desktop) (vp : Nat) (view : roots_view) : roots_desktop :=
  { d with view := Function.update d.view vp view }

/-- Write the record `output` back at the handle `p`. -/
def store_output (d : roots_desktop) (p : Nat) (output : roots_output) : roots_desktop :=
  { d with output := Function.update d.output p output }

/-- The function `view_set_fullscreen` on the view with handle `vp`;
`sh` gives each view its shell callbacks. -/
def view_set_fullscreen (sh : Nat → view_interface) (d : roots_desktop) (vp : Nat)
    (fullscreen : Bool) (output : Option Nat) : roots_desktop :=
  let view := d.view vp
  let was_fullscreen : Bool := view.fullscreen_output.isSome
  if was_fullscreen = fullscreen then d
  else
    let view :=
      match (sh vp).set_fullscreen with
      | some f => f view fullscreen
      | none => view
    if !was_fullscreen && fullscreen then
      let output :=
        match output with
        | none => view_get_output d view
        | some o => some o
      match desktop_output_from_wlr_output d output with
      | none => store_view d vp view
      | some roots_output =>
        let view_box := view_get_box view
        let view :=
          { view with
            saved :=
              { x := view.x, y := view.y, rotation := view.rotation,
                width := int_to_uint32 view_box.width, height := int_to_uint32 view_box.height } }
        let output_box := d.layout.get_box output
        let view := view_move_resize d (sh vp) view (output_box.x : ℚ) (output_box.y : ℚ)
          (int_to_uint32 output_box.width) (int_to_uint32 output_box.height)
        let view := view_rotate view 0
        let d := store_output d roots_output
          { d.output roots_output with fullscreen_view := some vp }
        store_view d vp { view with fullscreen_output := some roots_output }
    else
      let view := view_move_resize d (sh vp) view view.saved.x view.saved.y
        view.saved.width view.saved.height
      let view := view_rotate view view.saved.rotation
      match view.fullscreen_output with
      | none => store_view d vp view
      | some roots_output =>
        let d := store_output d roots_output
          { d.output roots_output with fullscreen_view := none }
        store_view d vp { view with fullscreen_output := none }

/-- The helpers of the hit test that live outside `desktop.c`: the `cos` and
`sin` of the C library, the popup and subsurface lookups (each gives the hit
surface and its offset), `wlr_box_contains_point`, and the input region of
the root surface. -/
structure surface_tree where
  cos : ℚ → ℚ
  sin : ℚ → ℚ
  xdg_popup_at : roots_view → ℚ → ℚ → Option (Nat × ℚ × ℚ)
  wl_shell_popup_at : roots_view → ℚ → ℚ → Option (Nat × ℚ × ℚ)
  subsurface_at : roots_view → ℚ → ℚ → Option (Nat × ℚ × ℚ)
  box_contains_point : wlr_box → ℚ → ℚ → Bool
  input_contains_point : roots_view → ℚ → ℚ → Bool

/-- The static function `view_at`: `none` is the C `false`; otherwise the
surface written to `*surface` (`none` for a decoration hit) and the
surface-local coordinates. -/
def view_at (t : surface_tree) (view : roots_view) (lx ly : ℚ) :
    Option (Option Nat × ℚ × ℚ) :=
  if view.type = roots_view_type.wl_shell true then none
  else
    let view_sx := lx - view.x
    let view_sy := ly - view.y
    let box : wlr_box :=
      { x := 0, y := 0, width := view.wlr_surface.width, height := view.wlr_surface.height }
    let p : ℚ × ℚ :=
      if view.rotation ≠ 0 then
        let ox := view_sx - (box.width : ℚ) / 2
        let oy := view_sy - (box.height : ℚ) / 2
        let rx := t.cos view.rotation * ox - t.sin view.rotation * oy
        let ry := t.cos view.rotation * oy + t.sin view.rotation * ox
        (rx + (box.width : ℚ) / 2, ry + (box.height : ℚ) / 2)
      else (view_sx, view_sy)
    let view_sx := p.1
    let view_sy := p.2
    let xdg_popup :=
      match view.type with
      | roots_view_type.xdg_shell_v6 => t.xdg_popup_at view view_sx view_sy
      | _ => none
    match xdg_popup with
    | some (surface, popup_sx, popup_sy) =>
      some (some surface, view_sx - popup_sx, view_sy - popup_sy)
    | none =>
      let wl_popup :=
        match view.type with
        | roots_view_type.wl_shell _ => t.wl_shell_popup_at view view_sx view_sy
        | _ => none
      match wl_popup with
      | some (surface, popup_sx, popup_sy) =>
        some (some surface, view_sx - popup_sx, view_sy - popup_sy)
      | none =>
        match t.subsurface_at view view_sx view_sy with
        | some (surface, sub_x, sub_y) => some (some surface, view_sx - sub_x, view_sy - sub_y)
        | none =>
          if view_get_deco_part view view_sx view_sy ≠ 0 then some (none, view_sx, view_sy)
          else if t.box_contains_point box view_sx view_sy &&
              t.input_contains_point view view_sx view_sy then
            some (some view.wlr_surface.handle, view_sx, view_sy)
          else none

/-- The result of `desktop_view_at`: the view returned and the out-parameters. -/
structure view_hit where
  view : Nat
  surface : Option Nat
  sx : ℚ
  sy : ℚ
deriving DecidableEq, Repr

/-- Hit-test the view with handle `vp` and keep the handle with the hit. -/
def view_hit_at (t : surface_tree) (d : roots_desktop) (lx ly : ℚ) (vp : Nat) :
    Option view_hit :=
  match view_at t (d.view vp) lx ly with
  | some (surface, sx, sy) => some { view := vp, surface := surface, sx := sx, sy := sy }
  | none => none

/-- The function `desktop_view_at`; `none` is the C `NULL`. -/
def desktop_view_at (t : surface_tree) (d : roots_desktop) (lx ly : ℚ) : Option view_hit :=
  let wlr_output := d.layout.output_at lx ly
  let fullscreen_view : Option Nat :=
    match wlr_output with
    | none => none
    | some _ =>
      match desktop_output_from_wlr_output d wlr_output with
      | none => none
      | some output => (d.output output).fullscreen_view
  match fullscreen_view with
  | some fv => view_hit_at t d lx ly fv
  | none => d.views.findSome? (view_hit_at t d lx ly)

/-! ## Regions of the decoration, and a sample decorated view -/

/-- The surface-local point lies strictly outside the decoration box. -/
def strictly_outside_deco_box (view : roots_view) (sx sy : ℚ) : Prop :=
  sx < -(view.border_width : ℚ) ∨
  (view.wlr_surface.width : ℚ) + (view.border_width : ℚ) < sx ∨
  sy < -((view.border_width : ℚ) + (view.titlebar_height : ℚ)) ∨
  (view.wlr_surface.height : ℚ) + (view.border_width : ℚ) < sy

/-- The surface-local point lies strictly inside the client surface. -/
def strictly_inside_surface (view : roots_view) (sx sy : ℚ) : Prop :=
  (0 < sx ∧ sx < (view.wlr_surface.width : ℚ)) ∧
  (0 < sy ∧ sy < (view.wlr_surface.height : ℚ))

/-- The surface-local point lies strictly inside the titlebar rectangle. -/
def strictly_inside_titlebar (view : roots_view) (sx sy : ℚ) : Prop :=
  (0 < sx ∧ sx < (view.wlr_surface.width : ℚ)) ∧
  (-(view.titlebar_height : ℚ) < sy ∧ sy < 0)

/-- A decorated view: border 4, titlebar 20, surface 200 by 100, at (50, 50). -/
def deco_view : roots_view :=
  { type := roots_view_type.xdg_shell_v6
    x := 50, y := 50, width := 200, height := 100, rotation := 0
    decorated := true, border_width := 4, titlebar_height := 20
    maximized := false, fullscreen_output := none
    saved := { x := 0, y := 0, rotation := 0, width := 0, height := 0 }
    pending_move_resize :=
      { update_x := false, update_y := false, x := 0, y := 0, width := 0, height := 0 }
    wlr_surface := { handle := 1, width := 200, height := 100, events := [] } }

/-- The bottom-border band in the words of the spec. -/
def spec_bottom_band (view : roots_view) (sx sy : ℚ) : Prop :=
  (-(view.border_width : ℚ) ≤ sx ∧
    sx ≤ (view.wlr_surface.width : ℚ) + (view.border_width : ℚ)) ∧
  ((view.wlr_surface.height : ℚ) < sy ∧
    sy < (view.wlr_surface.height : ℚ) + (view.border_width : ℚ))

/-- The top-border band in the words of the spec. -/
def spec_top_band (view : roots_view) (sx sy : ℚ) : Prop :=
  (-(view.border_width : ℚ) ≤ sx ∧
    sx ≤ (view.wlr_surface.width : ℚ) + (view.border_width : ℚ)) ∧
  (-((view.titlebar_height : ℚ) + (view.border_width : ℚ)) < sy ∧ sy < 0)

/-! ## Events sent by one evaluation of the output intersections -/

/-- The events one pass of the loop body of `view_update_output` sends for the
binding `output`. -/
def view_update_output_step_sent (layout : wlr_output_layout) (before : Option wlr_box)
    (box : wlr_box) (output : roots_output) : List surface_event :=
  (view_update_output_step layout before box
    { handle := 0, width := 0, height := 0, events := [] } output).events

/-- The events `view_update_output` sends while walking the bindings `ps`. -/
def view_update_output_sent (d : roots_desktop) (before : Option wlr_box) (box : wlr_box) :
    List Nat → List surface_event
  | [] => []
  | p :: ps =>
    view_update_output_step_sent d.layout before box (d.output p) ++
      view_update_output_sent d before box ps

/-- Enter events minus leave events for the output `o` in an event log. -/
def enter_leave_balance (events : List surface_event) (o : Nat) : Int :=
  (events.count (surface_event.enter o) : Int) - (events.count (surface_event.leave o) : Int)

/-! ## A layout of output boxes, for concrete scenarios -/

/-- Modelled from the spec: `wlr_box_intersection` as a test, two boxes overlap
in a box of positive width and height. -/
def box_intersects (a b : wlr_box) : Bool :=
  decide (0 < a.width ∧ 0 < a.height ∧ 0 < b.width ∧ 0 < b.height ∧
    max a.x b.x < min (a.x + a.width) (b.x + b.width) ∧
    max a.y b.y < min (a.y + a.height) (b.y + b.height))

/-- Modelled from the spec: `wlr_box_contains_point`, edges included. -/
def box_contains_point (b : wlr_box) (x y : ℚ) : Bool :=
  decide (0 < b.width ∧ 0 < b.height ∧ (b.x : ℚ) ≤ x ∧ x ≤ ((b.x + b.width : Int) : ℚ) ∧
    (b.y : ℚ) ≤ y ∧ y ≤ ((b.y + b.height : Int) : ℚ))

/-- Modelled from the spec: `wlr_box_closest_point`, the point clamped into the box. -/
def box_closest_point (b : wlr_box) (x y : ℚ) : ℚ × ℚ :=
  (if x < (b.x : ℚ) then (b.x : ℚ)
    else if x > ((b.x + b.width : Int) : ℚ) then ((b.x + b.width : Int) : ℚ) else x,
   if y < (b.y : ℚ) then (b.y : ℚ)
    else if y > ((b.y + b.height : Int) : ℚ) then ((b.y + b.height : Int) : ℚ) else y)

/-- Modelled from the spec: the closest point of the layout to `(x, y)`, the
clamped point of least squared distance over the outputs, first one on a tie
(the point itself when there is no output). -/
def layout_closest_point (outs : List (Nat × wlr_box)) (x y : ℚ) : ℚ × ℚ :=
  let best : Option (ℚ × ℚ × ℚ) :=
    outs.foldl
      (fun best o =>
        let p := box_closest_point o.2 x y
        let dist := (x - p.1) * (x - p.1) + (y - p.2) * (y - p.2)
        match best with
        | none => some (dist, p.1, p.2)
        | some (m, mx, my) => if dist < m then some (dist, p.1, p.2) else some (m, mx, my))
      none
  match best with
  | none => (x, y)
  | some (_, mx, my) => (mx, my)

/-- The box of the output with handle `h` in a list of output boxes (the zero
box when there is none). -/
def layout_box_of (outs : List (Nat × wlr_box)) (h : Nat) : wlr_box :=
  match outs.find? (fun o => o.1 == h) with
  | some o => o.2
  | none => { x := 0, y := 0, width := 0, height := 0 }

/-- Modelled from the spec: the bounding box of all outputs, which
`wlr_output_layout_get_box` gives for a `NULL` reference. -/
def layout_extents (outs : List (Nat × wlr_box)) : wlr_box :=
  match outs with
  | [] => { x := 0, y := 0, width := 0, height := 0 }
  | o :: rest =>
    let x1 := rest.foldl (fun m p => min m p.2.x) o.2.x
    let y1 := rest.foldl (fun m p => min m p.2.y) o.2.y
    let x2 := rest.foldl (fun m p => max m (p.2.x + p.2.width)) (o.2.x + o.2.width)
    let y2 := rest.foldl (fun m p => max m (p.2.y + p.2.height)) (o.2.y + o.2.height)
    { x := x1, y := y1, width := x2 - x1, height := y2 - y1 }

/-- Modelled from the spec: the layout component (`intersects`, `output_at`,
`closest_point`, `get_box`, `get`, `center_output`, and the effective
resolution of an output) for outputs given as a list of handles with their
boxes in layout coordinates. -/
def box_layout (outs : List (Nat × wlr_box)) : wlr_output_layout :=
  { intersects := fun reference box =>
      match reference with
      | none => outs.any (fun o => box_intersects o.2 box)
      | some h => outs.any (fun o => o.1 == h && box_intersects o.2 box)
    output_at := fun x y =>
      match outs.find? (fun o => box_contains_point o.2 x y) with
      | some o => some o.1
      | none => none
    closest_point := fun _ x y => layout_closest_point outs x y
    get_box := fun reference =>
      match reference with
      | none => layout_extents outs
      | some h => layout_box_of outs h
    get := fun h => ((layout_box_of outs h).x, (layout_box_of outs h).y)
    effective_resolution := fun h => ((layout_box_of outs h).width, (layout_box_of outs h).height)
    get_center_output :=
      let e := layout_extents outs
      let c := layout_closest_point outs
        ((e.x : ℚ) + (e.width : ℚ) / 2) ((e.y : ℚ) + (e.height : ℚ) / 2)
      match outs.find? (fun o => box_contains_point o.2 c.1 c.2) with
      | some o => some o.1
      | none => none }

/-- A view without shell callbacks. -/
def no_hooks : view_interface :=
  { move := none, resize := none, move_resize := none, maximize := none,
    set_fullscreen := none }

/-- A shell that applies every request to the view record at once. -/
def immediate_hooks : view_interface :=
  { move := some (fun v x y => view_update_position v x y)
    resize := some (fun v w h => view_update_size v w h)
    move_resize := some (fun v x y w h => view_update_size (view_update_position v x y) w h)
    maximize := none
    set_fullscreen := none }

/-- A plain undecorated view of the given position and size, with surface
handle `handle` of the same size. -/
def plain_view (handle : Nat) (x y : ℚ) (width height : Nat) : roots_view :=
  { type := roots_view_type.xwayland
    x := x, y := y, width := width, height := height, rotation := 0
    decorated := false, border_width := 0, titlebar_height := 0
    maximized := false, fullscreen_output := none
    saved := { x := 0, y := 0, rotation := 0, width := 0, height := 0 }
    pending_move_resize :=
      { update_x := false, update_y := false, x := 0, y := 0, width := 0, height := 0 }
    wlr_surface := { handle := handle, width := width, height := height, events := [] } }

/-- Two outputs side by side: output 1 at (0, 0) and output 2 at (800, 0),
both 800 by 600. -/
def two_outputs : List (Nat × wlr_box) :=
  [(1, { x := 0, y := 0, width := 800, height := 600 }),
   (2, { x := 800, y := 0, width := 800, height := 600 })]

/-- One output of 1920 by 1080 at the origin. -/
def one_output : List (Nat × wlr_box) :=
  [(1, { x := 0, y := 0, width := 1920, height := 1080 })]

/-- A desktop over the output boxes `outs` (the binding of output `h` has
handle `10 + h` and no fullscreen view), with the given views in list order
and the given seats. -/
def sample_desktop (outs : List (Nat × wlr_box)) (views : List (Nat × roots_view))
    (seats : List roots_seat) : roots_desktop :=
  { views := views.map (fun v => v.1)
    outputs := outs.map (fun o => 10 + o.1)
    view := fun p =>
      match views.find? (fun v => v.1 == p) with
      | some v => v.2
      | none => plain_view 0 0 0 0 0
    output := fun p => { wlr_output := p - 10, fullscreen_view := none }
    layout := box_layout outs
    seats := seats }

/-- A seat whose cursor is at (900, 100), on output 2 of `two_outputs`. -/
def seat_on_second : roots_seat :=
  { handle := 1, last_event := { tv_sec := 10, tv_nsec := 0 }, cursor_x := 900, cursor_y := 100 }

/-- The desktop of the setup scenario: the two outputs side by side, one new
view of 200 by 200 still at its first position (0, 0), the cursor on output 2. -/
def setup_desktop : roots_desktop :=
  sample_desktop two_outputs [(1, plain_view 1 0 0 200 200)] [seat_on_second]

/-- A seat used 10 s 500 ns after the epoch, its cursor on output 1. -/
def seat_recent : roots_seat :=
  { handle := 1, last_event := { tv_sec := 10, tv_nsec := 500 }, cursor_x := 100,
    cursor_y := 100 }

/-- A seat last used 5 s 100 ns after the epoch, its cursor on output 2. -/
def seat_stale : roots_seat :=
  { handle := 2, last_event := { tv_sec := 5, tv_nsec := 100 }, cursor_x := 900,
    cursor_y := 100 }

/-- One output of 1920 by 1080 and two views on it. -/
def fullscreen_desktop : roots_desktop :=
  sample_desktop one_output
    [(1, plain_view 1 100 100 400 300), (2, plain_view 2 500 500 400 300)] []

/-- Hit-test helpers of a desktop without popups and subsurfaces, whose root
surfaces accept input everywhere; views are not rotated, so the values of
`cos` and `sin` do not matter. -/
def plain_tree : surface_tree :=
  { cos := fun _ => 1
    sin := fun _ => 0
    xdg_popup_at := fun _ _ _ => none
    wl_shell_popup_at := fun _ _ _ => none
    subsurface_at := fun _ _ _ => none
    box_contains_point := box_contains_point
    input_contains_point := fun _ _ _ => true }

/-- The desktop of the cross-output hit test: outputs 1 and 2 side by side,
view 2 fullscreen on output 2, and view 1 floating in front of it at
(850, 100), 200 by 200. -/
def shadow_desktop : roots_desktop :=
  { views := [1, 2]
    outputs := [11, 12]
    view := fun p =>
      if p = 2 then { plain_view 2 800 0 800 600 with fullscreen_output := some 12 }
      else plain_view 1 850 100 200 200
    output := fun p =>
      if p = 12 then { wlr_output := 2, fullscreen_view := some 2 }
      else { wlr_output := p - 10, fullscreen_view := none }
    layout := box_layout two_outputs
    seats := [] }

/-! ## Contracts of the shell callbacks -/

/-- The position and size of a view. -/
def view_geometry (v : roots_view) : ℚ × ℚ × Nat × Nat := (v.x, v.y, v.width, v.height)

/-- The views `a` and `b` agree on the fields of the maximize/fullscreen state
machine: `maximized`, `fullscreen_output`, `rotation` and `saved`. -/
def same_state (a b : roots_view) : Prop :=
  a.maximized = b.maximized ∧ a.fullscreen_output = b.fullscreen_output ∧
    a.rotation = b.rotation ∧ a.saved = b.saved

/-- No shell callback of `hk` touches `maximized`, `fullscreen_output`,
`rotation` or `saved`: these fields are written by `desktop.c` only. -/
def interface_keeps_state (hk : view_interface) : Prop :=
  (∀ f, hk.move = some f → ∀ v x y, same_state (f v x y) v) ∧
  (∀ f, hk.resize = some f → ∀ v w h, same_state (f v w h) v) ∧
  (∀ f, hk.move_resize = some f → ∀ v x y w h, same_state (f v x y w h) v) ∧
  (∀ f, hk.maximize = some f → ∀ v m, same_state (f v m) v) ∧
  (∀ f, hk.set_fullscreen = some f → ∀ v m, same_state (f v m) v)

/-- The view of the maximize scenario: at (100, 200), 400 by 300, rotated by 1/2. -/
def rotated_view : roots_view :=
  { plain_view 1 100 200 400 300 with rotation := 1 / 2 }

/-- The desktop of the maximize scenario: one output of 1920 by 1080. -/
def maximize_desktop : roots_desktop :=
  sample_desktop one_output [(1, rotated_view)] []

/-- A call of one of the view operations, without the view it is made on. -/
inductive view_op where
  | move (x y : ℚ)
  | resize (width height : Nat)
  | move_resize (x y : ℚ) (width height : Nat)
  | maximize (maximized : Bool)
  | set_fullscreen (fullscreen : Bool) (output : Option Nat)
  | rotate (rotation : ℚ)

/-- Make the call `op` on the view with handle `vp`. -/
def apply_view_op (sh : Nat → view_interface) (d : roots_desktop) (vp : Nat) :
    view_op → roots_desktop
  | view_op.move x y => store_view d vp (view_move d (sh vp) (d.view vp) x y)
  | view_op.resize w h => store_view d vp (view_resize d (sh vp) (d.view vp) w h)
  | view_op.move_resize x y w h =>
    store_view d vp (view_move_resize d (sh vp) (d.view vp) x y w h)
  | view_op.maximize m => store_view d vp (view_maximize d (sh vp) (d.view vp) m)
  | view_op.set_fullscreen f o => view_set_fullscreen sh d vp f o
  | view_op.rotate r => store_view d vp (view_rotate (d.view vp) r)

/-- Make the calls of the list in order, each on the view it names. -/
def run_view_ops (sh : Nat → view_interface) (d : roots_desktop) :
    List (Nat × view_op) → roots_desktop
  | [] => d
  | o :: rest => run_view_ops sh (apply_view_op sh d o.1 o.2) rest

/-- Whether the call `op` on the view `v` is not a `view_rotate` of a view that
is maximized or fullscreen. -/
def rotate_guarded (v : roots_view) : view_op → Bool
  | view_op.rotate _ => !v.maximized && v.fullscreen_output.isNone
  | _ => true

/-- Whether, along the run of the calls, every `view_rotate` is made on a view
that is neither maximized nor fullscreen at that moment. -/
def rotations_guarded (sh : Nat → view_interface) (d : roots_desktop) :
    List (Nat × view_op) → Bool
  | [] => true
  | o :: rest =>
    rotate_guarded (d.view o.1) o.2 && rotations_guarded sh (apply_view_op sh d o.1 o.2) rest

/-- The rotation part of the maximize/fullscreen state: a view that is
maximized or fullscreen is not rotated, and one that is both has no rotation
saved either. -/
def rotation_invariant (v : roots_view) : Prop :=
  ((v.maximized = true ∨ v.fullscreen_output ≠ none) → v.rotation = 0) ∧
  ((v.maximized = true ∧ v.fullscreen_output ≠ none) → v.saved.rotation = 0)

/-! ## Enter/leave parity -/

/-- The event log of the view agrees with its box on every output binding of
the desktop: enters minus leaves is 1 for an output the box intersects and 0
for one it does not. -/
def parity_holds (d : roots_desktop) (v : roots_view) : Prop :=
  ∀ p ∈ d.outputs,
    enter_leave_balance v.wlr_surface.events (d.output p).wlr_output =
      if d.layout.intersects (some (d.output p).wlr_output) (view_get_box v) = true then 1
      else 0

/-- The net number of enter events one evaluation sends for the output `o`,
given whether the box intersected it before (`i`) and does now (`j`). -/
def transition_balance (i j : Bool) : Int :=
  (if (!i && j) = true then 1 else 0) - (if (i && !j) = true then 1 else 0)

/-- Whether the optional before box intersected the output `o`. -/
def intersected_before (layout : wlr_output_layout) (before : Option wlr_box) (o : Nat) :
    Bool :=
  match before with
  | none => false
  | some b => layout.intersects (some o) b

/-! ## Layout change -/

/-- The listener `handle_layout_change`: every view whose box intersects no
output is moved relative to the center output.  The halves are C integer
divisions (`Int.tdiv`), converted to `double` afterwards. -/
def handle_layout_change (sh : Nat → view_interface) (d : roots_desktop) : roots_desktop :=
  match d.layout.get_center_output with
  | none => d
  | some center_output =>
    let center_output_box := d.layout.get_box (some center_output)
    let center_x : ℚ :=
      ((center_output_box.x + Int.tdiv center_output_box.width 2 : Int) : ℚ)
    let center_y : ℚ :=
      ((center_output_box.y + Int.tdiv center_output_box.height 2 : Int) : ℚ)
    d.views.foldl
      (fun d vp =>
        let view := d.view vp
        let box := view_get_box view
        if d.layout.intersects none box then d
        else
          store_view d vp
            (view_move d (sh vp) view (center_x - ((Int.tdiv box.width 2 : Int) : ℚ))
              (center_y - ((Int.tdiv box.height 2 : Int) : ℚ))))
      d

/-- A view of 201 by 201 at (5000, 100), off the only output of 1920 by 1080;
the cursor of the only seat is on that output. -/
def stray_desktop : roots_desktop :=
  sample_desktop one_output [(1, plain_view 1 5000 100 201 201)] [seat_recent]

/-- The desktop of the layout-shrink scenario after the second output is gone:
one output of 1024 by 768, a view of 200 by 200 at (1500, 100), which no longer
intersects an output, and a view of 200 by 200 at (900, 100), which still does. -/
def shrunk_desktop : roots_desktop :=
  sample_desktop [(1, { x := 0, y := 0, width := 1024, height := 768 })]
    [(1, plain_view 1 1500 100 200 200), (2, plain_view 2 900 100 200 200)] []

/-! ## Fullscreen and teardown sequences -/

/-- The callbacks that `view_set_fullscreen` reaches (`resize`, `move_resize`
and `set_fullscreen`) leave the field `fullscreen_output` of the view as it
is. -/
def interface_keeps_fullscreen_output (hk : view_interface) : Prop :=
  (∀ f, hk.resize = some f → ∀ v w h, (f v w h).fullscreen_output = v.fullscreen_output) ∧
  (∀ f, hk.move_resize = some f →
    ∀ v x y w h, (f v x y w h).fullscreen_output = v.fullscreen_output) ∧
  (∀ f, hk.set_fullscreen = some f → ∀ v m, (f v m).fullscreen_output = v.fullscreen_output)

end Rootston

namespace Xwayland

/-!
# The X bridge: a shallow embedding of `xwayland/xwayland.c`

The bridge record is a value; what the code does to the Wayland display, to
the descriptors and to the environment is kept in a second record, the world.
The results of the system and library calls (`open_display_sockets`,
`socketpair`, `wl_client_create`, `fork`, `time`, `malloc`, `fcntl`, `getenv`,
`clearenv`) are parameters.  Descriptors, display numbers and times are `Int`.
-/

/-- The record `struct wlr_xwayland`: the fields that `wlr_xwayland_start`
resets, and `seat`. -/
structure wlr_xwayland where
  pid : Int
  display : Int
  x_fd : Int × Int
  wl_fd : Int × Int
  wm_fd : Int × Int
  client : Option Nat
  xwm : Option Nat
  cursor : Option Nat
  sigusr1_source : Option Nat
  server_start : Int
  seat : Option Nat
deriving DecidableEq, Repr

/-- A call of one of the two lifecycle functions of the bridge. -/
inductive bridge_call where
  | finish
  | start
deriving DecidableEq, Repr

/-- What the bridge has done outside its record: whether its display-destroy
and client-destroy listeners are linked, the descriptors it closed, the
clients and window managers it destroyed, the deferred cursors it freed, the
event sources it removed, the display numbers whose sockets it unlinked, the value of `DISPLAY` in the environment, and the calls of
`wlr_xwayland_finish` and `wlr_xwayland_start` so far (oldest first). -/
structure bridge_world where
  display_destroy_linked : Bool
  client_destroy_linked : Bool
  closed : List Int
  destroyed_clients : List Nat
  destroyed_xwms : List Nat
  freed_cursors : List Nat
  removed_sources : List Nat
  unlinked_displays : List Int
  display_env : Option String
  calls : List bridge_call
deriving DecidableEq, Repr

/-- The results of the calls `wlr_xwayland_start` makes: the return value of
`open_display_sockets` with the descriptors it leaves in `x_fd`, the two
`socketpair` calls (`none` is a failure), `time(NULL)`, `wl_client_create`
(`none` is `NULL`), the event source for SIGUSR1, and `fork` as seen by the
parent (`none` is a failure; the branch of the child is `exec_xwayland`). -/
structure start_results where
  open_display_sockets : Int × (Int × Int)
  socketpair_wl : Option (Int × Int)
  socketpair_wm : Option (Int × Int)
  now : Int
  client : Option Nat
  sigusr1_source : Nat
  fork : Option Int
deriving DecidableEq, Repr

/-- The function `safe_close`. -/
def safe_close (w : bridge_world) (fd : Int) : bridge_world :=
  if fd ≥ 0 then { w with closed := w.closed ++ [fd] } else w

/-- Printing an `int` with the conversion `%d`. -/
def format_d (i : Int) : String := toString i

/-- The function `wlr_xwayland_finish` (the record is never `NULL` here). -/
def wlr_xwayland_finish (x : wlr_xwayland) (w : bridge_world) : wlr_xwayland × bridge_world :=
  let w := { w with calls := w.calls ++ [bridge_call.finish] }
  if x.display = -1 then (x, w)
  else
    let w :=
      match x.cursor with
      | some c => { w with freed_cursors := w.freed_cursors ++ [c] }
      | none => w
    let w :=
      match x.xwm with
      | some m => { w with destroyed_xwms := w.destroyed_xwms ++ [m] }
      | none => w
    let w :=
      match x.client with
      | some c =>
        { w with client_destroy_linked := false, destroyed_clients := w.destroyed_clients ++ [c] }
      | none => w
    let w :=
      match x.sigusr1_source with
      | some s => { w with removed_sources := w.removed_sources ++ [s] }
      | none => w
    let w := safe_close w x.x_fd.1
    let w := safe_close w x.x_fd.2
    let w := safe_close w x.wl_fd.1
    let w := safe_close w x.wl_fd.2
    let w := safe_close w x.wm_fd.1
    let w := safe_close w x.wm_fd.2
    let w := { w with display_destroy_linked := false }
    let w := { w with unlinked_displays := w.unlinked_displays ++ [x.display] }
    let x := { x with display := -1 }
    let w := { w with display_env := none }
    (x, w)

/-- The function `wlr_xwayland_start`; the flag is the C return value. -/
def wlr_xwayland_start (os : start_results) (x : wlr_xwayland) (w : bridge_world) :
    Bool × wlr_xwayland × bridge_world :=
  let w := { w with calls := w.calls ++ [bridge_call.start] }
  let x : wlr_xwayland :=
    { pid := 0, display := 0, x_fd := (-1, -1), wl_fd := (-1, -1), wm_fd := (-1, -1),
      client := none, xwm := none, cursor := none, sigusr1_source := none,
      server_start := 0, seat := x.seat }
  let w := { w with display_destroy_linked := true }
  let x := { x with display := os.open_display_sockets.1, x_fd := os.open_display_sockets.2 }
  if x.display < 0 then
    let r := wlr_xwayland_finish x w
    (false, r.1, r.2)
  else
    match os.socketpair_wl with
    | none =>
      let r := wlr_xwayland_finish x w
      (false, r.1, r.2)
    | some wl =>
      let x := { x with wl_fd := wl }
      match os.socketpair_wm with
      | none =>
        let r := wlr_xwayland_finish x w
        (false, r.1, r.2)
      | some wm =>
        let x := { x with wm_fd := wm }
        let x := { x with server_start := os.now }
        match os.client with
        | none =>
          let r := wlr_xwayland_finish x w
          (false, r.1, r.2)
        | some c =>
          let x := { x with client := some c }
          let w := { w with display_env := none }
          let x := { x with wl_fd := (-1, x.wl_fd.2) }
          let w := { w with client_destroy_linked := true }
          let x := { x with sigusr1_source := some os.sigusr1_source }
          match os.fork with
          | none =>
            let x := { x with pid := -1 }
            let r := wlr_xwayland_finish x w
            (false, r.1, r.2)
          | some pid =>
            let x := { x with pid := pid }
            let w :=
              { w with closed := w.closed ++ [x.x_fd.1, x.x_fd.2, x.wl_fd.2, x.wm_fd.2] }
            let x :=
              { x with x_fd := (-1, -1), wl_fd := (x.wl_fd.1, -1), wm_fd := (x.wm_fd.1, -1) }
            (true, x, w)

/-- The listener `handle_client_destroy`; `now` is `time(NULL)` at the event,
`os` gives the results of the calls a restart makes. -/
def handle_client_destroy (os : start_results) (now : Int) (x : wlr_xwayland)
    (w : bridge_world) : wlr_xwayland × bridge_world :=
  let x := { x with client := none }
  let w := { w with client_destroy_linked := false }
  let r := wlr_xwayland_finish x w
  let x := r.1
  let w := r.2
  if now - x.server_start > 5 then
    let s := wlr_xwayland_start os x w
    (s.2.1, s.2.2)
  else (x, w)

/-- The record `calloc` gives. -/
def zero_xwayland : wlr_xwayland :=
  { pid := 0, display := 0, x_fd := (0, 0), wl_fd := (0, 0), wm_fd := (0, 0),
    client := none, xwm := none, cursor := none, sigusr1_source := none,
    server_start := 0, seat := none }

/-- The function `wlr_xwayland_create`: `none` is `NULL`, returned after the
record has been freed. -/
def wlr_xwayland_create (os : start_results) (w : bridge_world) :
    Option wlr_xwayland × bridge_world :=
  let s := wlr_xwayland_start os zero_xwayland w
  if s.1 then (some s.2.1, s.2.2) else (none, s.2.2)

/-- A world in which the bridge has done nothing yet. -/
def fresh_world : bridge_world :=
  { display_destroy_linked := false, client_destroy_linked := false, closed := [],
    destroyed_clients := [], destroyed_xwms := [], freed_cursors := [], removed_sources := [],
    unlinked_displays := [],
    display_env := none, calls := [] }

/-- Results with which a start succeeds: display 1 on descriptors 3 and 4, the
pairs (5, 6) and (7, 8), client 1, child 100, at the time `now`. -/
def good_results (now : Int) : start_results :=
  { open_display_sockets := (1, (3, 4)), socketpair_wl := some (5, 6),
    socketpair_wm := some (7, 8), now := now, client := some 1, sigusr1_source := 1,
    fork := some 100 }

/-- Results of a start that finds no free display: `open_display_sockets`
returns -1 and leaves `x_fd` alone. -/
def no_display_results : start_results :=
  { good_results 0 with open_display_sockets := (-1, (-1, -1)) }

/-! ## The command line of the child -/

/-- The index of the first `NULL` slot of the array at or after the index
`cur` (the loop `while (*cur_arg) cur_arg++`); `none` when there is none. -/
def next_null : List (Option String) → Nat → Option Nat
  | [], _ => none
  | a :: rest, 0 =>
    match a with
    | none => some 0
    | some _ => (next_null rest 0).map (fun i => i + 1)
  | _ :: rest, cur + 1 => (next_null rest cur).map (fun i => i + 1)

/-- The result of `fill_arg`: the return value, the array, and the slot
`*argv` points to afterwards. -/
structure fill_result where
  ret : Int
  argv : List (Option String)
  cur : Nat
deriving DecidableEq, Repr

/-- The function `fill_arg`: `s` is the text the format and its arguments print,
`malloc_ok` tells whether the allocation succeeds.  The array of `exec_xwayland`
always has a `NULL` slot at or after `cur`; should there be none, the array is
left alone and -1 is returned. -/
def fill_arg (malloc_ok : Bool) (argv : List (Option String)) (cur : Nat) (s : String) :
    fill_result :=
  match next_null argv cur with
  | none => { ret := -1, argv := argv, cur := cur }
  | some i =>
    if malloc_ok then { ret := (s.length : Int), argv := argv.set i (some s), cur := i }
    else { ret := -1, argv := argv, cur := cur }

/-- The results of the calls `exec_xwayland` makes in the child: `fcntl` on a
descriptor, the n-th `malloc`, `getenv("XDG_RUNTIME_DIR")`, `clearenv`. -/
structure child_results where
  fcntl_ok : Int → Bool
  malloc_ok : Nat → Bool
  xdg_runtime_dir : Option String
  clearenv_ok : Bool

/-- How `exec_xwayland` ends: with `_exit(EXIT_FAILURE)`, or in `execvp` with
the file, the argument array (terminator included) and the environment. -/
inductive child_end where
  | exit_failure
  | execvp (file : String) (argv : List (Option String)) (env : List (String × String))
deriving DecidableEq, Repr

/-- The function `exec_xwayland`. -/
def exec_xwayland (os : child_results) (x : wlr_xwayland) : child_end :=
  if !os.fcntl_ok x.x_fd.1 || !os.fcntl_ok x.x_fd.2 || !os.fcntl_ok x.wm_fd.2 ||
      !os.fcntl_ok x.wl_fd.2 then child_end.exit_failure
  else
    let argv : List (Option String) :=
      [some "Xwayland", none, some "-rootless", some "-terminate", some "-listen", none,
        some "-listen", none, some "-wm", none, none]
    let r1 := fill_arg (os.malloc_ok 0) argv 0 (":" ++ format_d x.display)
    if r1.ret < 0 then child_end.exit_failure
    else
      let r2 := fill_arg (os.malloc_ok 1) r1.argv r1.cur (format_d x.x_fd.1)
      if r2.ret < 0 then child_end.exit_failure
      else
        let r3 := fill_arg (os.malloc_ok 2) r2.argv r2.cur (format_d x.x_fd.2)
        if r3.ret < 0 then child_end.exit_failure
        else
          let r4 := fill_arg (os.malloc_ok 3) r3.argv r3.cur (format_d x.wm_fd.2)
          if r4.ret < 0 then child_end.exit_failure
          else
            match os.xdg_runtime_dir with
            | none => child_end.exit_failure
            | some xdg_runtime =>
              if !os.clearenv_ok then child_end.exit_failure
              else
                child_end.execvp "Xwayland" r4.argv
                  [("XDG_RUNTIME_DIR", xdg_runtime), ("WAYLAND_SOCKET", format_d x.wl_fd.2)]

/-- The argument array the spec gives for the child X server. -/
def spec_argv (display x_fd0 x_fd1 wm_fd1 : Int) : List (Option String) :=
  [some "Xwayland", some (":" ++ format_d display), some "-rootless", some "-terminate",
    some "-listen", some (format_d x_fd0), some "-listen", some (format_d x_fd1),
    some "-wm", some (format_d wm_fd1), none]

/-- Child results with which every call succeeds. -/
def good_child : child_results :=
  { fcntl_ok := fun _ => true, malloc_ok := fun _ => true,
    xdg_runtime_dir := some "/run/user/1000", clearenv_ok := true }

/-- The bridge record in the child of a start with display 1, listening
descriptors 3 and 4, Wayland pair (5, 6) and window-manager pair (7, 8). -/
def child_xwayland : wlr_xwayland :=
  { zero_xwayland with
    display := 1, x_fd := (3, 4), wl_fd := (-1, 6), wm_fd := (7, 8), client := some 1,
    sigusr1_source := some 1 }

/-- The bridge and the world after a start that succeeded at time 100. -/
def running_bridge : wlr_xwayland × bridge_world :=
  (wlr_xwayland_start (good_results 100) zero_xwayland fresh_world).2

end Xwayland

namespace Rootston

/-! # Theorems -/

/-! ## Decoration hit regions -/

/-- The bit arithmetic of `view_get_deco_part`, with the seven tests of the
code as propositional atoms. -/
theorem deco_bits_cases (T yg l r xg b t : Prop) [Decidable T] [Decidable yg] [Decidable l]
    [Decidable r] [Decidable xg] [Decidable b] [Decidable t] (parts : Nat)
    (hparts : parts =
      if T then 16
      else
        let p0 : Nat := 0
        let p1 := if yg then (if l then p0 ||| 4 else if r then p0 ||| 8 else p0) else p0
        let p2 := if xg then (if b then p1 ||| 2 else if t then p1 ||| 1 else p1) else p1
        p2) :
    (parts = 0 ↔ ¬ T ∧ ¬ (yg ∧ (l ∨ r)) ∧ ¬ (xg ∧ (b ∨ t))) ∧
    (deco_has parts 2 = true ↔ ¬ T ∧ xg ∧ b) ∧
    (deco_has parts 1 = true ↔ ¬ T ∧ xg ∧ ¬ b ∧ t) := by
  subst hparts
  by_cases hT : T <;> by_cases hyg : yg <;> by_cases hl : l <;> by_cases hr : r <;>
    by_cases hxg : xg <;> by_cases hb : b <;> by_cases ht : t <;>
    simp [hT, hyg, hl, hr, hxg, hb, ht, deco_has] <;> decide

/-- For a decorated view, which bits `view_get_deco_part` returns, in terms of
the tests the code makes. -/
theorem view_get_deco_part_bits (view : roots_view) (sx sy : ℚ)
    (hd : view.decorated = true) :
    (view_get_deco_part view sx sy = ROOTS_DECO_PART_NONE ↔
      ¬ (sx > 0 ∧ sx < (view.wlr_surface.width : ℚ) ∧ sy < 0 ∧
          sy > ((-view.titlebar_height : Int) : ℚ)) ∧
      ¬ ((sy ≥ ((-(view.titlebar_height + view.border_width) : Int) : ℚ) ∧
            sy ≤ ((view.wlr_surface.height + view.border_width : Int) : ℚ)) ∧
          ((sx < 0 ∧ sx > ((-view.border_width : Int) : ℚ)) ∨
            (sx > (view.wlr_surface.width : ℚ) ∧
              sx < ((view.wlr_surface.width + view.border_width : Int) : ℚ)))) ∧
      ¬ ((sx ≥ ((-view.border_width : Int) : ℚ) ∧
            sx ≤ ((view.wlr_surface.width + view.border_width : Int) : ℚ)) ∧
          ((sy > (view.wlr_surface.height : ℚ) ∧
              sy ≤ ((view.wlr_surface.height + view.border_width : Int) : ℚ)) ∨
            (sy ≥ ((-(view.titlebar_height + view.border_width) : Int) : ℚ) ∧ sy < 0)))) ∧
    (deco_has (view_get_deco_part view sx sy) ROOTS_DECO_PART_BOTTOM_BORDER = true ↔
      ¬ (sx > 0 ∧ sx < (view.wlr_surface.width : ℚ) ∧ sy < 0 ∧
          sy > ((-view.titlebar_height : Int) : ℚ)) ∧
      (sx ≥ ((-view.border_width : Int) : ℚ) ∧
        sx ≤ ((view.wlr_surface.width + view.border_width : Int) : ℚ)) ∧
      (sy > (view.wlr_surface.height : ℚ) ∧
        sy ≤ ((view.wlr_surface.height + view.border_width : Int) : ℚ))) ∧
    (deco_has (view_get_deco_part view sx sy) ROOTS_DECO_PART_TOP_BORDER = true ↔
      ¬ (sx > 0 ∧ sx < (view.wlr_surface.width : ℚ) ∧ sy < 0 ∧
          sy > ((-view.titlebar_height : Int) : ℚ)) ∧
      (sx ≥ ((-view.border_width : Int) : ℚ) ∧
        sx ≤ ((view.wlr_surface.width + view.border_width : Int) : ℚ)) ∧
      ¬ (sy > (view.wlr_surface.height : ℚ) ∧
        sy ≤ ((view.wlr_surface.height + view.border_width : Int) : ℚ)) ∧
      (sy ≥ ((-(view.titlebar_height + view.border_width) : Int) : ℚ) ∧ sy < 0)) := by
  apply deco_bits_cases
  unfold view_get_deco_part
  simp only [hd, Bool.not_true, Bool.false_eq_true, if_false, ROOTS_DECO_PART_NONE,
    ROOTS_DECO_PART_TITLEBAR, ROOTS_DECO_PART_LEFT_BORDER, ROOTS_DECO_PART_RIGHT_BORDER,
    ROOTS_DECO_PART_BOTTOM_BORDER, ROOTS_DECO_PART_TOP_BORDER]

/-- C7: for a decorated view `view_get_deco_part` returns exactly TITLEBAR if
and only if `0 < sx < surface.w` and `-titlebar_height < sy < 0`; for an
undecorated view it returns NONE at every point. -/
theorem view_get_deco_part_titlebar (view : roots_view) (sx sy : ℚ) :
    (view.decorated = true →
      (view_get_deco_part view sx sy = ROOTS_DECO_PART_TITLEBAR ↔
        strictly_inside_titlebar view sx sy)) ∧
    (view.decorated = false → view_get_deco_part view sx sy = ROOTS_DECO_PART_NONE) := by
  constructor
  · intro hd
    unfold view_get_deco_part strictly_inside_titlebar
    simp only [hd, Bool.not_true, Bool.false_eq_true, if_false]
    push_cast
    by_cases ht : sx > 0 ∧ sx < (view.wlr_surface.width : ℚ) ∧ sy < 0 ∧
        sy > -(view.titlebar_height : ℚ)
    · rw [if_pos ht]
      simp only [true_iff]
      exact ⟨⟨ht.1, ht.2.1⟩, ht.2.2.2, ht.2.2.1⟩
    · rw [if_neg ht]
      constructor
      · intro h
        exfalso
        revert h
        simp only [ROOTS_DECO_PART_TITLEBAR, ROOTS_DECO_PART_LEFT_BORDER,
          ROOTS_DECO_PART_RIGHT_BORDER, ROOTS_DECO_PART_BOTTOM_BORDER,
          ROOTS_DECO_PART_TOP_BORDER]
        split_ifs <;> decide
      · intro h
        exact absurd ⟨h.1.1, h.1.2, h.2.2, h.2.1⟩ ht
  · intro hd
    unfold view_get_deco_part
    simp [hd]

/-- C7, at the sample view and the point (5, -5) of its titlebar, and at the
same view without decorations. -/
theorem view_get_deco_part_titlebar_witness :
    (view_get_deco_part deco_view 5 (-5) = ROOTS_DECO_PART_TITLEBAR ↔
        strictly_inside_titlebar deco_view 5 (-5)) ∧
    view_get_deco_part { deco_view with decorated := false } 5 (-5) = ROOTS_DECO_PART_NONE :=
  ⟨(view_get_deco_part_titlebar deco_view 5 (-5)).1 rfl,
   (view_get_deco_part_titlebar { deco_view with decorated := false } 5 (-5)).2 rfl⟩

/-- C6 (amended): for a decorated view with `border_width > 0` (and non-negative
titlebar height and surface size), `view_get_deco_part` returns NONE exactly
when the point is strictly outside the decoration box, or `0 ≤ sy ≤ surface.h`
and `sx` is in the closed span `[0, surface.w]` or exactly on a vertical edge of
the decoration box (`sx = -border_width` or `sx = surface.w + border_width`). -/
theorem view_get_deco_part_none_iff (view : roots_view) (sx sy : ℚ)
    (hd : view.decorated = true) (hbw : 0 < view.border_width)
    (hth : 0 ≤ view.titlebar_height) (hsw : 0 ≤ view.wlr_surface.width)
    (hsh : 0 ≤ view.wlr_surface.height) :
    view_get_deco_part view sx sy = ROOTS_DECO_PART_NONE ↔
      (strictly_outside_deco_box view sx sy ∨
        ((0 ≤ sy ∧ sy ≤ (view.wlr_surface.height : ℚ)) ∧
          (sx = -(view.border_width : ℚ) ∨
            (0 ≤ sx ∧ sx ≤ (view.wlr_surface.width : ℚ)) ∨
            sx = (view.wlr_surface.width : ℚ) + (view.border_width : ℚ)))) := by
  rw [(view_get_deco_part_bits view sx sy hd).1]
  unfold strictly_outside_deco_box
  push_cast
  have hbw' : (0 : ℚ) < (view.border_width : ℚ) := by exact_mod_cast hbw
  have hth' : (0 : ℚ) ≤ (view.titlebar_height : ℚ) := by exact_mod_cast hth
  have hsw' : (0 : ℚ) ≤ (view.wlr_surface.width : ℚ) := by exact_mod_cast hsw
  have hsh' : (0 : ℚ) ≤ (view.wlr_surface.height : ℚ) := by exact_mod_cast hsh
  generalize (view.border_width : ℚ) = bw at *
  generalize (view.titlebar_height : ℚ) = th at *
  generalize (view.wlr_surface.width : ℚ) = sw at *
  generalize (view.wlr_surface.height : ℚ) = sh at *
  constructor
  · rintro ⟨_, hLR, hBT⟩
    by_cases o1 : sx < -bw
    · exact Or.inl (Or.inl o1)
    by_cases o2 : sw + bw < sx
    · exact Or.inl (Or.inr (Or.inl o2))
    by_cases o3 : sy < -(bw + th)
    · exact Or.inl (Or.inr (Or.inr (Or.inl o3)))
    by_cases o4 : sh + bw < sy
    · exact Or.inl (Or.inr (Or.inr (Or.inr o4)))
    push_neg at o1 o2 o3 o4
    have hy1 : sy ≤ sh := by
      by_contra hc
      push_neg at hc
      exact hBT ⟨⟨o1, o2⟩, Or.inl ⟨hc, o4⟩⟩
    have hy0 : 0 ≤ sy := by
      by_contra hc
      push_neg at hc
      exact hBT ⟨⟨o1, o2⟩, Or.inr ⟨by linarith, hc⟩⟩
    have hyg : sy ≥ -(th + bw) ∧ sy ≤ sh + bw := ⟨by linarith, o4⟩
    refine Or.inr ⟨⟨hy0, hy1⟩, ?_⟩
    by_cases hx0 : sx < 0
    · left
      refine le_antisymm ?_ o1
      by_contra hc
      push_neg at hc
      exact hLR ⟨hyg, Or.inl ⟨hx0, hc⟩⟩
    · push_neg at hx0
      by_cases hx1 : sx ≤ sw
      · exact Or.inr (Or.inl ⟨hx0, hx1⟩)
      · push_neg at hx1
        right; right
        refine le_antisymm o2 ?_
        by_contra hc
        push_neg at hc
        exact hLR ⟨hyg, Or.inr ⟨hx1, hc⟩⟩
  · rintro (h | ⟨⟨hy0, hy1⟩, hx⟩)
    · refine ⟨?_, ?_, ?_⟩
      · rintro ⟨h1, h2, h3, h4⟩
        rcases h with h | h | h | h <;> linarith
      · rintro ⟨⟨h1, h2⟩, (⟨h3, h4⟩ | ⟨h3, h4⟩)⟩ <;> rcases h with h | h | h | h <;> linarith
      · rintro ⟨⟨h1, h2⟩, (⟨h3, h4⟩ | ⟨h3, h4⟩)⟩ <;> rcases h with h | h | h | h <;> linarith
    · refine ⟨?_, ?_, ?_⟩
      · rintro ⟨h1, h2, h3, h4⟩
        linarith
      · rintro ⟨⟨h1, h2⟩, (⟨h3, h4⟩ | ⟨h3, h4⟩)⟩ <;>
          rcases hx with h | ⟨h, h'⟩ | h <;> linarith
      · rintro ⟨⟨h1, h2⟩, (⟨h3, h4⟩ | ⟨h3, h4⟩)⟩ <;> linarith

/-- C6 (amended), at the sample view and the point (0, 50) on the left edge of
the surface. -/
theorem view_get_deco_part_none_iff_witness :
    view_get_deco_part deco_view 0 50 = ROOTS_DECO_PART_NONE ↔
      (strictly_outside_deco_box deco_view 0 50 ∨
        ((0 ≤ (50 : ℚ) ∧ (50 : ℚ) ≤ (deco_view.wlr_surface.height : ℚ)) ∧
          ((0 : ℚ) = -(deco_view.border_width : ℚ) ∨
            (0 ≤ (0 : ℚ) ∧ (0 : ℚ) ≤ (deco_view.wlr_surface.width : ℚ)) ∨
            (0 : ℚ) = (deco_view.wlr_surface.width : ℚ) + (deco_view.border_width : ℚ)))) :=
  view_get_deco_part_none_iff deco_view 0 50 rfl (by decide) (by decide) (by decide)
    (by decide)

/-- C6 as stated fails: on the sample view the point (0, 50) gets NONE although
it is neither strictly outside the decoration box nor strictly inside the
client surface. -/
theorem view_get_deco_part_none_counterexample :
    ¬ (view_get_deco_part deco_view 0 50 = ROOTS_DECO_PART_NONE ↔
        (strictly_outside_deco_box deco_view 0 50 ∨ strictly_inside_surface deco_view 0 50)) := by
  have h : view_get_deco_part deco_view 0 50 = ROOTS_DECO_PART_NONE := by decide!
  intro hiff
  have h2 := hiff.1 h
  unfold strictly_outside_deco_box strictly_inside_surface deco_view at h2
  norm_num at h2

/-- C8 as stated fails: on the sample view the points (50, 104) and (50, -24)
are outside the titlebar; the first gets BOTTOM although
`sy = surface.h + border_width` is not in the open interval, the second gets TOP
although `sy = -(titlebar_height + border_width)` is not in the open interval. -/
theorem view_get_deco_part_band_counterexample :
    (¬ strictly_inside_titlebar deco_view 50 104 ∧
      ¬ (deco_has (view_get_deco_part deco_view 50 104) ROOTS_DECO_PART_BOTTOM_BORDER = true ↔
          spec_bottom_band deco_view 50 104)) ∧
    (¬ strictly_inside_titlebar deco_view 50 (-24) ∧
      ¬ (deco_has (view_get_deco_part deco_view 50 (-24)) ROOTS_DECO_PART_TOP_BORDER = true ↔
          spec_top_band deco_view 50 (-24))) := by
  have hb : deco_has (view_get_deco_part deco_view 50 104) ROOTS_DECO_PART_BOTTOM_BORDER
      = true := by
    decide!
  have ht : deco_has (view_get_deco_part deco_view 50 (-24)) ROOTS_DECO_PART_TOP_BORDER
      = true := by
    decide!
  refine ⟨⟨?_, ?_⟩, ⟨?_, ?_⟩⟩
  · unfold strictly_inside_titlebar deco_view
    norm_num
  · intro hiff
    have h2 := hiff.1 hb
    unfold spec_bottom_band deco_view at h2
    norm_num at h2
  · unfold strictly_inside_titlebar deco_view
    norm_num
  · intro hiff
    have h2 := hiff.1 ht
    unfold spec_top_band deco_view at h2
    norm_num at h2

/-- C8 (amended): for a decorated view (surface height non-negative) and a point
outside the titlebar rectangle, the result contains BOTTOM exactly when
`-border_width ≤ sx ≤ surface.w + border_width` and
`surface.h < sy ≤ surface.h + border_width`, and contains TOP exactly when
`-border_width ≤ sx ≤ surface.w + border_width` and
`-(titlebar_height + border_width) ≤ sy < 0`: each band is closed at its outer
edge. -/
theorem view_get_deco_part_bands (view : roots_view) (sx sy : ℚ)
    (hd : view.decorated = true) (hsh : 0 ≤ view.wlr_surface.height)
    (hnt : ¬ strictly_inside_titlebar view sx sy) :
    (deco_has (view_get_deco_part view sx sy) ROOTS_DECO_PART_BOTTOM_BORDER = true ↔
      ((-(view.border_width : ℚ) ≤ sx ∧
          sx ≤ (view.wlr_surface.width : ℚ) + (view.border_width : ℚ)) ∧
        ((view.wlr_surface.height : ℚ) < sy ∧
          sy ≤ (view.wlr_surface.height : ℚ) + (view.border_width : ℚ)))) ∧
    (deco_has (view_get_deco_part view sx sy) ROOTS_DECO_PART_TOP_BORDER = true ↔
      ((-(view.border_width : ℚ) ≤ sx ∧
          sx ≤ (view.wlr_surface.width : ℚ) + (view.border_width : ℚ)) ∧
        (-((view.titlebar_height : ℚ) + (view.border_width : ℚ)) ≤ sy ∧ sy < 0))) := by
  have hT : ¬ (sx > 0 ∧ sx < (view.wlr_surface.width : ℚ) ∧ sy < 0 ∧
      sy > ((-view.titlebar_height : Int) : ℚ)) := by
    rintro ⟨h1, h2, h3, h4⟩
    push_cast at h4
    exact hnt ⟨⟨h1, h2⟩, h4, h3⟩
  have hsh' : (0 : ℚ) ≤ (view.wlr_surface.height : ℚ) := by exact_mod_cast hsh
  obtain ⟨_, hB, hTop⟩ := view_get_deco_part_bits view sx sy hd
  rw [hB, hTop]
  push_cast at hT ⊢
  constructor
  · constructor
    · rintro ⟨_, h1, h2⟩
      exact ⟨h1, h2⟩
    · rintro ⟨h1, h2⟩
      exact ⟨hT, h1, h2⟩
  · constructor
    · rintro ⟨_, h1, _, h2⟩
      exact ⟨h1, h2⟩
    · rintro ⟨h1, h2⟩
      refine ⟨hT, h1, ?_, h2⟩
      rintro ⟨h3, _⟩
      linarith [h2.2]

/-- C8 (amended), at the sample view and the point (50, 104) on the outer edge
of the bottom border. -/
theorem view_get_deco_part_bands_witness :
    (deco_has (view_get_deco_part deco_view 50 104) ROOTS_DECO_PART_BOTTOM_BORDER = true ↔
      ((-(deco_view.border_width : ℚ) ≤ 50 ∧
          (50 : ℚ) ≤ (deco_view.wlr_surface.width : ℚ) + (deco_view.border_width : ℚ)) ∧
        ((deco_view.wlr_surface.height : ℚ) < 104 ∧
          (104 : ℚ) ≤ (deco_view.wlr_surface.height : ℚ) + (deco_view.border_width : ℚ)))) ∧
    (deco_has (view_get_deco_part deco_view 50 104) ROOTS_DECO_PART_TOP_BORDER = true ↔
      ((-(deco_view.border_width : ℚ) ≤ 50 ∧
          (50 : ℚ) ≤ (deco_view.wlr_surface.width : ℚ) + (deco_view.border_width : ℚ)) ∧
        (-((deco_view.titlebar_height : ℚ) + (deco_view.border_width : ℚ)) ≤ 104 ∧
          (104 : ℚ) < 0))) :=
  view_get_deco_part_bands deco_view 50 104 rfl (by decide)
    (by unfold strictly_inside_titlebar deco_view; norm_num)

/-! ## Enter and leave events -/

/-- One pass of the loop body appends the events it sends to the log. -/
theorem view_update_output_step_events (layout : wlr_output_layout) (before : Option wlr_box)
    (box : wlr_box) (s : wlr_surface) (o : roots_output) :
    (view_update_output_step layout before box s o).events =
      s.events ++ view_update_output_step_sent layout before box o := by
  unfold view_update_output_step_sent view_update_output_step wlr_surface_send_enter
    wlr_surface_send_leave
  cases before with
  | none =>
    cases h2 : layout.intersects (some o.wlr_output) box <;> simp [h2]
  | some b =>
    cases h1 : layout.intersects (some o.wlr_output) b <;>
      cases h2 : layout.intersects (some o.wlr_output) box <;> simp [h1, h2]

/-- The loop of `view_update_output` appends the events it sends to the log. -/
theorem view_update_output_fold_events (d : roots_desktop) (before : Option wlr_box)
    (box : wlr_box) (ps : List Nat) (s : wlr_surface) :
    (ps.foldl (fun surface p => view_update_output_step d.layout before box surface (d.output p))
      s).events = s.events ++ view_update_output_sent d before box ps := by
  induction ps generalizing s with
  | nil => simp [view_update_output_sent]
  | cons p ps ih =>
    simp only [List.foldl_cons, ih, view_update_output_step_events, view_update_output_sent,
      List.append_assoc]

/-- The log after `view_update_output` is the log before followed by the
events sent for the bindings of the desktop. -/
theorem view_update_output_events (d : roots_desktop) (view : roots_view)
    (before : Option wlr_box) :
    (view_update_output d view before).wlr_surface.events =
      view.wlr_surface.events ++
        view_update_output_sent d before (view_get_box view) d.outputs := by
  unfold view_update_output
  exact view_update_output_fold_events d before (view_get_box view) d.outputs view.wlr_surface

/-- An event is sent by the loop exactly when some binding sends it. -/
theorem mem_view_update_output_sent (d : roots_desktop) (before : Option wlr_box)
    (box : wlr_box) (ps : List Nat) (e : surface_event) :
    e ∈ view_update_output_sent d before box ps ↔
      ∃ p ∈ ps, e ∈ view_update_output_step_sent d.layout before box (d.output p) := by
  induction ps with
  | nil => simp [view_update_output_sent]
  | cons p ps ih => simp [view_update_output_sent, ih]

/-- When one binding sends a leave event. -/
theorem leave_mem_step_sent (layout : wlr_output_layout) (before : Option wlr_box)
    (box : wlr_box) (out : roots_output) (o : Nat) :
    surface_event.leave o ∈ view_update_output_step_sent layout before box out ↔
      out.wlr_output = o ∧
        (∃ b, before = some b ∧ layout.intersects (some out.wlr_output) b = true) ∧
        layout.intersects (some out.wlr_output) box = false := by
  unfold view_update_output_step_sent view_update_output_step wlr_surface_send_enter
    wlr_surface_send_leave
  cases before with
  | none =>
    cases h2 : layout.intersects (some out.wlr_output) box <;> simp [h2]
  | some b =>
    cases h1 : layout.intersects (some out.wlr_output) b <;>
      cases h2 : layout.intersects (some out.wlr_output) box <;> (simp [h1, h2] <;> exact eq_comm)

/-- When one binding sends an enter event. -/
theorem enter_mem_step_sent (layout : wlr_output_layout) (before : Option wlr_box)
    (box : wlr_box) (out : roots_output) (o : Nat) :
    surface_event.enter o ∈ view_update_output_step_sent layout before box out ↔
      out.wlr_output = o ∧
        (before = none ∨
          ∃ b, before = some b ∧ layout.intersects (some out.wlr_output) b = false) ∧
        layout.intersects (some out.wlr_output) box = true := by
  unfold view_update_output_step_sent view_update_output_step wlr_surface_send_enter
    wlr_surface_send_leave
  cases before with
  | none =>
    cases h2 : layout.intersects (some out.wlr_output) box <;> (simp [h2] <;> exact eq_comm)
  | some b =>
    cases h1 : layout.intersects (some out.wlr_output) b <;>
      cases h2 : layout.intersects (some out.wlr_output) box <;> (simp [h1, h2] <;> exact eq_comm)

/-- C9: `view_update_output` appends to the log of the view's surface a list
of events in which, for every output binding of the desktop, a leave for that
output occurs exactly when the before box is present and intersected the output
and the current box does not, and an enter occurs exactly when the before box
is absent or did not intersect the output and the current box does; with a
null before box no leave is sent at all. -/
theorem view_update_output_sends (d : roots_desktop) (view : roots_view)
    (before : Option wlr_box) :
    ∃ sent : List surface_event,
      (view_update_output d view before).wlr_surface.events =
        view.wlr_surface.events ++ sent ∧
      (∀ p ∈ d.outputs,
        (surface_event.leave (d.output p).wlr_output ∈ sent ↔
          ((∃ b, before = some b ∧
              d.layout.intersects (some (d.output p).wlr_output) b = true) ∧
            d.layout.intersects (some (d.output p).wlr_output) (view_get_box view) = false)) ∧
        (surface_event.enter (d.output p).wlr_output ∈ sent ↔
          ((before = none ∨
              ∃ b, before = some b ∧
                d.layout.intersects (some (d.output p).wlr_output) b = false) ∧
            d.layout.intersects (some (d.output p).wlr_output) (view_get_box view) = true))) ∧
      (before = none → ∀ o, surface_event.leave o ∉ sent) := by
  refine ⟨view_update_output_sent d before (view_get_box view) d.outputs,
    view_update_output_events d view before, ?_, ?_⟩
  · intro p hp
    constructor
    · rw [mem_view_update_output_sent]
      constructor
      · rintro ⟨q, _, hq⟩
        rw [leave_mem_step_sent] at hq
        obtain ⟨he, h1, h2⟩ := hq
        rw [he] at h1 h2
        exact ⟨h1, h2⟩
      · rintro ⟨h1, h2⟩
        exact ⟨p, hp, (leave_mem_step_sent _ _ _ _ _).2 ⟨rfl, h1, h2⟩⟩
    · rw [mem_view_update_output_sent]
      constructor
      · rintro ⟨q, _, hq⟩
        rw [enter_mem_step_sent] at hq
        obtain ⟨he, h1, h2⟩ := hq
        rw [he] at h1 h2
        exact ⟨h1, h2⟩
      · rintro ⟨h1, h2⟩
        exact ⟨p, hp, (enter_mem_step_sent _ _ _ _ _).2 ⟨rfl, h1, h2⟩⟩
  · intro hb o ho
    rw [mem_view_update_output_sent] at ho
    obtain ⟨q, _, hq⟩ := ho
    rw [leave_mem_step_sent] at hq
    obtain ⟨_, ⟨b, hb', _⟩, _⟩ := hq
    rw [hb] at hb'
    exact Option.noConfusion hb'

/-- C9, at the setup desktop (two outputs side by side): a view now at
(1100, 200) that was at (0, 0) before. -/
theorem view_update_output_sends_witness :
    ∃ sent : List surface_event,
      (view_update_output setup_desktop (plain_view 1 1100 200 200 200)
          (some (view_get_box (plain_view 1 0 0 200 200)))).wlr_surface.events =
        (plain_view 1 1100 200 200 200).wlr_surface.events ++ sent ∧
      (∀ p ∈ setup_desktop.outputs,
        (surface_event.leave (setup_desktop.output p).wlr_output ∈ sent ↔
          ((∃ b, some (view_get_box (plain_view 1 0 0 200 200)) = some b ∧
              setup_desktop.layout.intersects (some (setup_desktop.output p).wlr_output) b
                = true) ∧
            setup_desktop.layout.intersects (some (setup_desktop.output p).wlr_output)
              (view_get_box (plain_view 1 1100 200 200 200)) = false)) ∧
        (surface_event.enter (setup_desktop.output p).wlr_output ∈ sent ↔
          ((some (view_get_box (plain_view 1 0 0 200 200)) = none ∨
              ∃ b, some (view_get_box (plain_view 1 0 0 200 200)) = some b ∧
                setup_desktop.layout.intersects (some (setup_desktop.output p).wlr_output) b
                  = false) ∧
            setup_desktop.layout.intersects (some (setup_desktop.output p).wlr_output)
              (view_get_box (plain_view 1 1100 200 200 200)) = true))) ∧
      (some (view_get_box (plain_view 1 0 0 200 200)) = none →
        ∀ o, surface_event.leave o ∉ sent) :=
  view_update_output_sends setup_desktop (plain_view 1 1100 200 200 200)
    (some (view_get_box (plain_view 1 0 0 200 200)))

/-- What `view_update_output` sends in the scenario of the witness: a leave
for output 1 and an enter for output 2. -/
theorem view_update_output_sample :
    (view_update_output setup_desktop (plain_view 1 1100 200 200 200)
        (some (view_get_box (plain_view 1 0 0 200 200)))).wlr_surface.events =
      [surface_event.leave 1, surface_event.enter 2] := by
  decide!

/-! ## Centering -/

/-- C5 (the code at the failing input): of a seat used at 10 s 500 ns and a
seat used at 5 s 100 ns the loop of `view_center` selects the older one, in
either list order, and the view is centered on output 2, under the cursor of
the older seat. -/
theorem view_center_seat_selects_older :
    view_center_seat [seat_recent, seat_stale] = some seat_stale ∧
    view_center_seat [seat_stale, seat_recent] = some seat_stale ∧
    seat_stale.last_event.tv_sec < seat_recent.last_event.tv_sec ∧
    (view_center (sample_desktop two_outputs [] [seat_recent, seat_stale]) no_hooks
      (plain_view 1 0 0 200 200)).2.x = 1100 := by
  decide!

/-! ## Fullscreen linkage and hit test -/

/-- C1 (the code at the failing input): on a desktop with one output, after
`view_set_fullscreen(view 1, true, output)` and then
`view_set_fullscreen(view 2, true, output)` both views have the binding of the
output as `fullscreen_output`, while the binding's `fullscreen_view` is view 2
only. -/
theorem view_set_fullscreen_twice_same_output :
    ((view_set_fullscreen (fun _ => no_hooks)
        (view_set_fullscreen (fun _ => no_hooks) fullscreen_desktop 1 true (some 1))
        2 true (some 1)).view 1).fullscreen_output = some 11 ∧
    ((view_set_fullscreen (fun _ => no_hooks)
        (view_set_fullscreen (fun _ => no_hooks) fullscreen_desktop 1 true (some 1))
        2 true (some 1)).view 2).fullscreen_output = some 11 ∧
    ((view_set_fullscreen (fun _ => no_hooks)
        (view_set_fullscreen (fun _ => no_hooks) fullscreen_desktop 1 true (some 1))
        2 true (some 1)).output 11).fullscreen_view = some 2 := by
  decide!

/-- C4: if the output found at `(lx, ly)` has a binding whose `fullscreen_view`
is `V`, then `desktop_view_at` at `(lx, ly)` returns `V` or no view, whatever
the views in the desktop's list are. -/
theorem desktop_view_at_fullscreen_shadows (t : surface_tree) (d : roots_desktop)
    (lx ly : ℚ) (wlr_output binding V : Nat)
    (hat : d.layout.output_at lx ly = some wlr_output)
    (hbinding : desktop_output_from_wlr_output d (some wlr_output) = some binding)
    (hfull : (d.output binding).fullscreen_view = some V) :
    (desktop_view_at t d lx ly).map view_hit.view = some V ∨
      desktop_view_at t d lx ly = none := by
  unfold desktop_view_at
  simp only [hat, hbinding, hfull]
  unfold view_hit_at
  cases view_at t (d.view V) lx ly with
  | none => exact Or.inr rfl
  | some r => exact Or.inl rfl

/-- C4, in the cross-output scenario: view 2 is fullscreen on output 2 and
view 1 floats in front of it; the hit test at (900, 150) gives view 2. -/
theorem desktop_view_at_fullscreen_shadows_witness :
    (desktop_view_at plain_tree shadow_desktop 900 150).map view_hit.view = some 2 ∨
      desktop_view_at plain_tree shadow_desktop 900 150 = none :=
  desktop_view_at_fullscreen_shadows plain_tree shadow_desktop 900 150 2 12 2
    (by decide!) (by decide!) (by decide!)

/-- The cross-output scenario evaluated: the hit is view 2 with its root
surface at surface-local (100, 150); without the fullscreen link the floating
view 1 would be hit. -/
theorem desktop_view_at_shadow_sample :
    desktop_view_at plain_tree shadow_desktop 900 150 =
      some { view := 2, surface := some 2, sx := 100, sy := 150 } ∧
    (view_hit_at plain_tree shadow_desktop 900 150 1).map view_hit.view = some 1 := by
  decide!

/-! ## Integer conversions -/

/-- The conversions at the ends of their ranges: a width of `4294967295` is the
`int` `-1`, which is the `uint32_t` `4294967295` again, and a `double` is cut
toward zero. -/
theorem conversions_sample :
    uint32_to_int 4294967295 = -1 ∧ uint32_to_int 2147483647 = 2147483647 ∧
    uint32_to_int 2147483648 = -2147483648 ∧ int_to_uint32 (-1) = 4294967295 ∧
    (view_get_box (plain_view 1 (5 / 2) (-5 / 2) 4294967295 200)) =
      { x := 2, y := -2, width := -1, height := 200 } := by
  decide!

/-- Evaluating the output intersections keeps the state-machine fields. -/
theorem view_update_output_state (d : roots_desktop) (v : roots_view)
    (before : Option wlr_box) : same_state (view_update_output d v before) v :=
  ⟨rfl, rfl, rfl, rfl⟩

/-- Every view agrees with itself on the state-machine fields. -/
theorem same_state_refl (v : roots_view) : same_state v v := ⟨rfl, rfl, rfl, rfl⟩

/-- Agreement on the state-machine fields is transitive. -/
theorem same_state_trans {a b c : roots_view} (h1 : same_state a b) (h2 : same_state b c) :
    same_state a c :=
  ⟨h1.1.trans h2.1, h1.2.1.trans h2.2.1, h1.2.2.1.trans h2.2.2.1, h1.2.2.2.trans h2.2.2.2⟩

/-- The function `view_resize` keeps the state-machine fields. -/
theorem view_resize_state (d : roots_desktop) (hk : view_interface)
    (hstate : interface_keeps_state hk) (v : roots_view) (w h : Nat) :
    same_state (view_resize d hk v w h) v := by
  unfold view_resize
  cases hr : hk.resize with
  | none => exact view_update_output_state _ _ _
  | some f => exact same_state_trans (view_update_output_state _ _ _) (hstate.2.1 f hr v w h)

/-- The function `view_move` keeps the state-machine fields. -/
theorem view_move_state (d : roots_desktop) (hk : view_interface)
    (hstate : interface_keeps_state hk) (v : roots_view) (x y : ℚ) :
    same_state (view_move d hk v x y) v := by
  unfold view_move
  split_ifs with hxy
  · exact same_state_refl v
  · cases hm : hk.move with
    | none =>
      refine same_state_trans (view_update_output_state _ _ _) ?_
      unfold view_update_position
      rw [if_neg hxy]
      exact ⟨rfl, rfl, rfl, rfl⟩
    | some f => exact same_state_trans (view_update_output_state _ _ _) (hstate.1 f hm v x y)

/-- The function `view_move_resize` when the position does not change. -/
theorem view_move_resize_same_position (d : roots_desktop) (hk : view_interface)
    (v : roots_view) (x y : ℚ) (w h : Nat) (hx : x = v.x) (hy : y = v.y) :
    view_move_resize d hk v x y w h = view_resize d hk v w h := by
  unfold view_move_resize
  simp [hx, hy]

/-- The function `view_move_resize` when the position changes and the shell
has a move-resize callback. -/
theorem view_move_resize_hook (d : roots_desktop) (hk : view_interface)
    (v : roots_view) (x y : ℚ) (w h : Nat) (hxy : ¬ (x = v.x ∧ y = v.y))
    (f : roots_view → ℚ → ℚ → Nat → Nat → roots_view) (hf : hk.move_resize = some f) :
    view_move_resize d hk v x y w h = f v x y w h := by
  unfold view_move_resize
  have : (!decide (x ≠ v.x) && !decide (y ≠ v.y)) = false := by
    by_cases hx : x = v.x <;> by_cases hy : y = v.y <;> simp_all
  simp [this, hf]
  intro hx hy
  exact absurd ⟨hx, hy⟩ hxy

/-- The function `view_move_resize` when the position changes and the shell
has no move-resize callback. -/
theorem view_move_resize_pending (d : roots_desktop) (hk : view_interface)
    (v : roots_view) (x y : ℚ) (w h : Nat) (hxy : ¬ (x = v.x ∧ y = v.y))
    (hf : hk.move_resize = none) :
    view_move_resize d hk v x y w h =
      view_resize d hk
        { v with
          pending_move_resize :=
            { update_x := decide (x ≠ v.x), update_y := decide (y ≠ v.y), x := x, y := y,
              width := w, height := h } } w h := by
  unfold view_move_resize
  have : (!decide (x ≠ v.x) && !decide (y ≠ v.y)) = false := by
    by_cases hx : x = v.x <;> by_cases hy : y = v.y <;> simp_all
  simp [this, hf]
  intro hx hy
  exact absurd ⟨hx, hy⟩ hxy

/-- The function `view_move_resize` keeps the state-machine fields. -/
theorem view_move_resize_state (d : roots_desktop) (hk : view_interface)
    (hstate : interface_keeps_state hk) (v : roots_view) (x y : ℚ) (w h : Nat) :
    same_state (view_move_resize d hk v x y w h) v := by
  by_cases hxy : x = v.x ∧ y = v.y
  · rw [view_move_resize_same_position d hk v x y w h hxy.1 hxy.2]
    exact view_resize_state d hk hstate v w h
  · cases hf : hk.move_resize with
    | none =>
      rw [view_move_resize_pending d hk v x y w h hxy hf]
      exact same_state_trans (view_resize_state d hk hstate _ w h) ⟨rfl, rfl, rfl, rfl⟩
    | some f =>
      rw [view_move_resize_hook d hk v x y w h hxy f hf]
      exact hstate.2.2.1 f hf v x y w h

/-- What the optional maximize callback does to a view. -/
theorem maximize_hook_effect (hk : view_interface) :
    ∃ g : roots_view → Bool → roots_view,
      (∀ (d : roots_desktop) (view : roots_view) (maximized : Bool),
        view_maximize d hk view maximized =
          if view.maximized = maximized then view
          else
            let view := g view maximized
            let view :=
              if !view.maximized && maximized then
                let view_box := view_get_box view
                let view :=
                  { view with
                    maximized := true
                    saved :=
                      { x := view.x, y := view.y, rotation := view.rotation,
                        width := (int_to_uint32 view_box.width), height := (int_to_uint32 view_box.height) } }
                let output := view_get_output d view
                let output_box := d.layout.get_box output
                let view := view_move_resize d hk view (output_box.x : ℚ) (output_box.y : ℚ)
                  (int_to_uint32 output_box.width) (int_to_uint32 output_box.height)
                view_rotate view 0
              else view
            if view.maximized && !maximized then
              let view := { view with maximized := false }
              let view := view_move_resize d hk view view.saved.x view.saved.y
                view.saved.width view.saved.height
              view_rotate view view.saved.rotation
            else view) ∧
      (interface_keeps_state hk → ∀ v m, same_state (g v m) v) ∧
      ((∀ f, hk.maximize = some f → ∀ v m, view_geometry (f v m) = view_geometry v) →
        ∀ v m, view_geometry (g v m) = view_geometry v) := by
  refine ⟨fun v m => match hk.maximize with | some f => f v m | none => v, ?_, ?_, ?_⟩
  · intro d view maximized
    rfl
  · intro hs v m
    cases hm : hk.maximize with
    | none => exact same_state_refl v
    | some f => exact hs.2.2.2.1 f hm v m
  · intro hg v m
    cases hm : hk.maximize with
    | none => rfl
    | some f => exact hg f hm v m

/-- The function `view_rotate` sets the rotation. -/
theorem view_rotate_rotation (v : roots_view) (r : ℚ) : (view_rotate v r).rotation = r := by
  unfold view_rotate
  split_ifs with h
  · exact h
  · rfl

/-- The function `view_rotate` changes nothing but the rotation. -/
theorem view_rotate_other (v : roots_view) (r : ℚ) :
    view_geometry (view_rotate v r) = view_geometry v ∧
    (view_rotate v r).maximized = v.maximized ∧
    (view_rotate v r).fullscreen_output = v.fullscreen_output ∧
    (view_rotate v r).saved = v.saved := by
  unfold view_rotate
  split_ifs <;> exact ⟨rfl, rfl, rfl, rfl⟩

/-- The function `view_update_position` keeps the state-machine fields. -/
theorem view_update_position_state (v : roots_view) (x y : ℚ) :
    same_state (view_update_position v x y) v := by
  unfold view_update_position
  split_ifs <;> exact ⟨rfl, rfl, rfl, rfl⟩

/-- The function `view_update_size` keeps the state-machine fields. -/
theorem view_update_size_state (v : roots_view) (w h : Nat) :
    same_state (view_update_size v w h) v := by
  unfold view_update_size
  split_ifs <;> exact ⟨rfl, rfl, rfl, rfl⟩

/-- The shell that applies every request at once keeps the state-machine fields. -/
theorem immediate_hooks_keep_state : interface_keeps_state immediate_hooks := by
  refine ⟨?_, ?_, ?_, ?_, ?_⟩
  · intro f hf v x y
    cases hf
    exact view_update_position_state v x y
  · intro f hf v w h
    cases hf
    exact view_update_size_state v w h
  · intro f hf v x y w h
    cases hf
    exact same_state_trans (view_update_size_state _ w h) (view_update_position_state v x y)
  · intro f hf
    cases hf
  · intro f hf
    cases hf

/-- The maximize scenario evaluated with a shell that applies requests at once:
after `view_maximize(view, true)` the view fills the output, is not rotated and
has the old geometry saved. -/
theorem view_maximize_sample :
    view_geometry (view_maximize maximize_desktop immediate_hooks rotated_view true)
      = (0, 0, 1920, 1080) ∧
    (view_maximize maximize_desktop immediate_hooks rotated_view true).rotation = 0 ∧
    (view_maximize maximize_desktop immediate_hooks rotated_view true).saved =
      { x := 100, y := 200, rotation := 1 / 2, width := 400, height := 300 } := by
  decide!

/-! ## Rotation while maximized or fullscreen -/

/-- The rotation invariant only reads the state-machine fields. -/
theorem rotation_invariant_of_same_state {a b : roots_view} (h : same_state a b)
    (hb : rotation_invariant b) : rotation_invariant a := by
  obtain ⟨h1, h2, h3, h4⟩ := h
  unfold rotation_invariant
  rw [h1, h2, h3, h4]
  exact hb

/-- The function `view_maximize` keeps the rotation invariant. -/
theorem view_maximize_rotation_invariant (d : roots_desktop) (hk : view_interface)
    (hstate : interface_keeps_state hk) (v : roots_view) (m : Bool)
    (hv : rotation_invariant v) : rotation_invariant (view_maximize d hk v m) := by
  obtain ⟨g, hdef, hgs, _⟩ := maximize_hook_effect hk
  have hgs := hgs hstate
  rw [hdef]
  by_cases hm : v.maximized = m
  · rw [if_pos hm]
    exact hv
  rw [if_neg hm]
  obtain ⟨v1, hv1⟩ : ∃ v1, v1 = g v m := ⟨_, rfl⟩
  have h1 : same_state v1 v := by rw [hv1]; exact hgs v m
  cases m with
  | true =>
    have hvm : v.maximized = false := by
      cases hc : v.maximized with
      | false => rfl
      | true => exact absurd hc hm
    have h1m : v1.maximized = false := h1.1.trans hvm
    simp only [← hv1, h1m, Bool.not_false, Bool.and_self, if_true]
    rw [if_neg (by simp)]
    refine ⟨fun _ => view_rotate_rotation _ 0, ?_⟩
    rintro ⟨_, hfs⟩
    have hs := view_move_resize_state d hk hstate
      { v1 with
        maximized := true
        saved :=
          { x := v1.x, y := v1.y, rotation := v1.rotation,
            width := (int_to_uint32 (view_get_box v1).width), height := (int_to_uint32 (view_get_box v1).height) } }
    rw [(view_rotate_other _ 0).2.2.1] at hfs
    rw [(view_rotate_other _ 0).2.2.2]
    rw [(hs _ _ _ _).2.1] at hfs
    rw [(hs _ _ _ _).2.2.2]
    show v1.rotation = 0
    rw [h1.2.2.1]
    exact hv.1 (Or.inr (by rw [← h1.2.1]; exact hfs))
  | false =>
    have hvm : v.maximized = true := by
      cases hc : v.maximized with
      | false => exact absurd hc hm
      | true => rfl
    have h1m : v1.maximized = true := h1.1.trans hvm
    simp only [← hv1, h1m, Bool.not_true, Bool.and_false, Bool.false_eq_true, if_false,
      Bool.not_false, Bool.and_self, if_true]
    have hs := view_move_resize_state d hk hstate { v1 with maximized := false }
      v1.saved.x v1.saved.y v1.saved.width v1.saved.height
    constructor
    · intro hor
      rw [view_rotate_rotation, hs.2.2.2]
      show v1.saved.rotation = 0
      rw [h1.2.2.2]
      refine hv.2 ⟨hvm, ?_⟩
      rcases hor with hmax | hfs
      · rw [(view_rotate_other _ _).2.1, hs.1] at hmax
        exact absurd hmax (by simp)
      · rw [(view_rotate_other _ _).2.2.1, hs.2.1] at hfs
        rw [← h1.2.1]
        exact hfs
    · rintro ⟨hmax, _⟩
      rw [(view_rotate_other _ _).2.1, hs.1] at hmax
      exact absurd hmax (by simp)

/-- What the optional fullscreen callback does to a view. -/
theorem set_fullscreen_hook_effect (sh : Nat → view_interface) :
    ∃ g : Nat → roots_view → Bool → roots_view,
      (∀ (d : roots_desktop) (vp : Nat) (fullscreen : Bool) (output : Option Nat),
        view_set_fullscreen sh d vp fullscreen output =
          let view := d.view vp
          let was_fullscreen : Bool := view.fullscreen_output.isSome
          if was_fullscreen = fullscreen then d
          else
            let view := g vp view fullscreen
            if !was_fullscreen && fullscreen then
              let output :=
                match output with
                | none => view_get_output d view
                | some o => some o
              match desktop_output_from_wlr_output d output with
              | none => store_view d vp view
              | some roots_output =>
                let view_box := view_get_box view
                let view :=
                  { view with
                    saved :=
                      { x := view.x, y := view.y, rotation := view.rotation,
                        width := (int_to_uint32 view_box.width), height := (int_to_uint32 view_box.height) } }
                let output_box := d.layout.get_box output
                let view := view_move_resize d (sh vp) view (output_box.x : ℚ)
                  (output_box.y : ℚ) (int_to_uint32 output_box.width) (int_to_uint32 output_box.height)
                let view := view_rotate view 0
                let d := store_output d roots_output
                  { d.output roots_output with fullscreen_view := some vp }
                store_view d vp { view with fullscreen_output := some roots_output }
            else
              let view := view_move_resize d (sh vp) view view.saved.x view.saved.y
                view.saved.width view.saved.height
              let view := view_rotate view view.saved.rotation
              match view.fullscreen_output with
              | none => store_view d vp view
              | some roots_output =>
                let d := store_output d roots_output
                  { d.output roots_output with fullscreen_view := none }
                store_view d vp { view with fullscreen_output := none }) ∧
      ((∀ q, interface_keeps_state (sh q)) → ∀ q v m, same_state (g q v m) v) ∧
      ((∀ q, interface_keeps_fullscreen_output (sh q)) →
        ∀ q v m, (g q v m).fullscreen_output = v.fullscreen_output) := by
  refine ⟨fun q v m => match (sh q).set_fullscreen with | some f => f v m | none => v,
    ?_, ?_, ?_⟩
  · intro d vp fullscreen output
    rfl
  · intro hs q v m
    show same_state (match (sh q).set_fullscreen with | some f => f v m | none => v) v
    cases hm : (sh q).set_fullscreen with
    | none => exact same_state_refl v
    | some f => exact (hs q).2.2.2.2 f hm v m
  · intro hs q v m
    show (match (sh q).set_fullscreen with | some f => f v m | none => v).fullscreen_output =
      v.fullscreen_output
    cases hm : (sh q).set_fullscreen with
    | none => rfl
    | some f => exact (hs q).2.2 f hm v m

/-- Reading a view after `store_view`. -/
theorem store_view_view (d : roots_desktop) (vp : Nat) (v : roots_view) (p : Nat) :
    (store_view d vp v).view p = if p = vp then v else d.view p := by
  unfold store_view
  simp only [Function.update_apply]

/-- Writing an output binding leaves the views alone. -/
theorem store_output_view (d : roots_desktop) (q : Nat) (o : roots_output) :
    (store_output d q o).view = d.view := rfl

/-- The function `view_set_fullscreen` writes one view, and the record it
writes satisfies the rotation invariant. -/
theorem view_set_fullscreen_rotation_invariant (sh : Nat → view_interface)
    (hstate : ∀ q, interface_keeps_state (sh q)) (d : roots_desktop) (vp : Nat)
    (fullscreen : Bool) (output : Option Nat) (hv : rotation_invariant (d.view vp)) :
    ∃ v, rotation_invariant v ∧
      ∀ p, (view_set_fullscreen sh d vp fullscreen output).view p =
        if p = vp then v else d.view p := by
  obtain ⟨g, hdef, hgs, _⟩ := set_fullscreen_hook_effect sh
  have hgs := hgs hstate
  have unchanged : ∀ p, d.view p = if p = vp then d.view vp else d.view p := by
    intro p
    split_ifs with h
    · rw [h]
    · rfl
  rw [hdef]
  simp only []
  by_cases hw : (d.view vp).fullscreen_output.isSome = fullscreen
  · rw [if_pos hw]
    exact ⟨d.view vp, hv, unchanged⟩
  rw [if_neg hw]
  obtain ⟨v1, hv1⟩ : ∃ v1, v1 = g vp (d.view vp) fullscreen := ⟨_, rfl⟩
  have h1 : same_state v1 (d.view vp) := by rw [hv1]; exact hgs vp _ _
  have h1inv : rotation_invariant v1 := rotation_invariant_of_same_state h1 hv
  rw [← hv1]
  cases fullscreen with
  | true =>
    have hnone : (d.view vp).fullscreen_output = none := by
      cases hc : (d.view vp).fullscreen_output with
      | none => rfl
      | some q => rw [hc] at hw; exact absurd rfl hw
    simp only [hnone, Option.isSome_none, Bool.not_false, Bool.and_self, if_true]
    cases hlook : desktop_output_from_wlr_output d
        (match output with
          | none => view_get_output d v1
          | some o => some o) with
    | none =>
      exact ⟨v1, h1inv, fun p => store_view_view d vp v1 p⟩
    | some ro =>
      simp only []
      refine ⟨_, ?_, fun p => by rw [store_view_view, store_output_view]⟩
      · have hs := view_move_resize_state d (sh vp) (hstate vp)
          { v1 with
            saved :=
              { x := v1.x, y := v1.y, rotation := v1.rotation,
                width := (int_to_uint32 (view_get_box v1).width),
                height := (int_to_uint32 (view_get_box v1).height) } }
        constructor
        · intro _
          exact view_rotate_rotation _ 0
        · rintro ⟨hmax, _⟩
          show (view_rotate _ 0).saved.rotation = 0
          rw [(view_rotate_other _ 0).2.2.2, (hs _ _ _ _).2.2.2]
          show v1.rotation = 0
          have hmax' : (view_rotate (view_move_resize d (sh vp)
              { v1 with
                saved :=
                  { x := v1.x, y := v1.y, rotation := v1.rotation,
                    width := (int_to_uint32 (view_get_box v1).width),
                    height := (int_to_uint32 (view_get_box v1).height) } }
              _ _ _ _) 0).maximized = true := hmax
          rw [(view_rotate_other _ 0).2.1, (hs _ _ _ _).1] at hmax'
          exact h1inv.1 (Or.inl hmax')
  | false =>
    have hsome : (d.view vp).fullscreen_output ≠ none := by
      intro hc
      rw [hc] at hw
      exact absurd rfl hw
    have hcond : (!(d.view vp).fullscreen_output.isSome && false) = false := by simp
    simp only [hcond, Bool.false_eq_true, if_false]
    have hs := view_move_resize_state d (sh vp) (hstate vp) v1
      v1.saved.x v1.saved.y v1.saved.width v1.saved.height
    obtain ⟨r, hr⟩ : ∃ r, r = view_rotate
        (view_move_resize d (sh vp) v1 v1.saved.x v1.saved.y v1.saved.width v1.saved.height)
        (view_move_resize d (sh vp) v1 v1.saved.x v1.saved.y v1.saved.width
          v1.saved.height).saved.rotation := ⟨_, rfl⟩
    rw [← hr]
    have hrm : r.maximized = v1.maximized := by rw [hr, (view_rotate_other _ _).2.1, hs.1]
    have hrf : r.fullscreen_output = v1.fullscreen_output := by
      rw [hr, (view_rotate_other _ _).2.2.1, hs.2.1]
    have hrr : r.rotation = v1.saved.rotation := by
      rw [hr, view_rotate_rotation, hs.2.2.2]
    have h1f : v1.fullscreen_output ≠ none := by rw [h1.2.1]; exact hsome
    cases hro : r.fullscreen_output with
    | none => exact absurd (hrf.symm.trans hro) h1f
    | some ro =>
      simp only []
      refine ⟨_, ?_, fun p => by rw [store_view_view, store_output_view]⟩
      · constructor
        · rintro (hmax | hfs)
          · show r.rotation = 0
            rw [hrr]
            exact h1inv.2 ⟨by rw [← hrm]; exact hmax, h1f⟩
          · exact absurd rfl hfs
        · rintro ⟨_, hfs⟩
          exact absurd rfl hfs

/-- One guarded call keeps the rotation invariant of every view. -/
theorem apply_view_op_rotation_invariant (sh : Nat → view_interface)
    (hstate : ∀ q, interface_keeps_state (sh q)) (d : roots_desktop) (vp : Nat) (op : view_op)
    (hguard : rotate_guarded (d.view vp) op = true)
    (hv : ∀ p, rotation_invariant (d.view p)) :
    ∀ p, rotation_invariant ((apply_view_op sh d vp op).view p) := by
  have stored : ∀ v, rotation_invariant v →
      ∀ p, rotation_invariant ((store_view d vp v).view p) := by
    intro v hvv p
    rw [store_view_view]
    split_ifs
    · exact hvv
    · exact hv p
  cases op with
  | move x y =>
    exact stored _ (rotation_invariant_of_same_state (view_move_state d _ (hstate vp) _ x y)
      (hv vp))
  | resize w h =>
    exact stored _ (rotation_invariant_of_same_state (view_resize_state d _ (hstate vp) _ w h)
      (hv vp))
  | move_resize x y w h =>
    exact stored _ (rotation_invariant_of_same_state
      (view_move_resize_state d _ (hstate vp) _ x y w h) (hv vp))
  | maximize m =>
    exact stored _ (view_maximize_rotation_invariant d _ (hstate vp) _ m (hv vp))
  | set_fullscreen f o =>
    obtain ⟨v, hvv, hview⟩ :=
      view_set_fullscreen_rotation_invariant sh hstate d vp f o (hv vp)
    intro p
    show rotation_invariant ((view_set_fullscreen sh d vp f o).view p)
    rw [hview p]
    split_ifs
    · exact hvv
    · exact hv p
  | rotate r =>
    refine stored _ ?_
    have hg : (!(d.view vp).maximized && (d.view vp).fullscreen_output.isNone) = true := hguard
    rw [Bool.and_eq_true, Bool.not_eq_true', Option.isNone_iff_eq_none] at hg
    have ho := view_rotate_other (d.view vp) r
    constructor
    · rintro (hmax | hfs)
      · rw [ho.2.1, hg.1] at hmax
        exact absurd hmax (by simp)
      · rw [ho.2.2.1] at hfs
        exact absurd hg.2 hfs
    · rintro ⟨hmax, _⟩
      rw [ho.2.1, hg.1] at hmax
      exact absurd hmax (by simp)

/-- A guarded run keeps the rotation invariant of every view. -/
theorem run_view_ops_rotation_invariant (sh : Nat → view_interface)
    (hstate : ∀ q, interface_keeps_state (sh q)) (ops : List (Nat × view_op))
    (d : roots_desktop) (hguard : rotations_guarded sh d ops = true)
    (hv : ∀ p, rotation_invariant (d.view p)) :
    ∀ p, rotation_invariant ((run_view_ops sh d ops).view p) := by
  induction ops generalizing d with
  | nil => exact hv
  | cons o rest ih =>
    have hg : (rotate_guarded (d.view o.1) o.2 &&
        rotations_guarded sh (apply_view_op sh d o.1 o.2) rest) = true := hguard
    rw [Bool.and_eq_true] at hg
    exact ih (apply_view_op sh d o.1 o.2) hg.2
      (apply_view_op_rotation_invariant sh hstate d o.1 o.2 hg.1 hv)

/-- C3 (amended): start from views that are neither maximized nor fullscreen,
with shell callbacks that leave `maximized`, `fullscreen_output`, `rotation`
and `saved` alone, and make any sequence of `view_move`, `view_resize`,
`view_move_resize`, `view_maximize`, `view_set_fullscreen` and `view_rotate`
calls in which `view_rotate` is only called on a view that is neither maximized
nor fullscreen at that moment; then every view that is maximized or has a
non-null `fullscreen_output` has rotation 0. -/
theorem rotation_zero_while_maximized_or_fullscreen (sh : Nat → view_interface)
    (d : roots_desktop) (ops : List (Nat × view_op))
    (hstate : ∀ q, interface_keeps_state (sh q))
    (hinit : ∀ p, (d.view p).maximized = false ∧ (d.view p).fullscreen_output = none)
    (hguard : rotations_guarded sh d ops = true) (p : Nat)
    (hp : ((run_view_ops sh d ops).view p).maximized = true ∨
      ((run_view_ops sh d ops).view p).fullscreen_output ≠ none) :
    ((run_view_ops sh d ops).view p).rotation = 0 := by
  have h0 : ∀ q, rotation_invariant (d.view q) := by
    intro q
    obtain ⟨hm, hf⟩ := hinit q
    constructor
    · rintro (h | h)
      · rw [hm] at h
        exact absurd h (by simp)
      · exact absurd hf h
    · rintro ⟨h, _⟩
      rw [hm] at h
      exact absurd h (by simp)
  exact (run_view_ops_rotation_invariant sh hstate ops d hguard h0 p).1 hp

/-- No view of the maximize scenario is maximized or fullscreen at the start. -/
theorem maximize_desktop_fresh (p : Nat) :
    (maximize_desktop.view p).maximized = false ∧
      (maximize_desktop.view p).fullscreen_output = none := by
  have key : ∀ o : Option (Nat × roots_view), (∀ v, o = some v → v.2 = rotated_view) →
      ((match o with
          | some v => v.2
          | none => plain_view 0 0 0 0 0).maximized = false ∧
        (match o with
          | some v => v.2
          | none => plain_view 0 0 0 0 0).fullscreen_output = none) := by
    intro o ho
    cases o with
    | none => exact ⟨rfl, rfl⟩
    | some v =>
      simp only [ho v rfl]
      exact ⟨rfl, rfl⟩
  apply key
  intro v hv
  have hmem := List.mem_of_find?_eq_some hv
  simp only [List.mem_singleton] at hmem
  rw [hmem]

/-- C3 (amended), in the maximize scenario with a shell that applies requests
at once: the view is rotated, maximized, made fullscreen, moved and restored
from maximize; it is still fullscreen and its rotation is 0. -/
theorem rotation_zero_while_maximized_or_fullscreen_witness :
    ((run_view_ops (fun _ => immediate_hooks) maximize_desktop
        [(1, view_op.rotate (1 / 4)), (1, view_op.maximize true),
          (1, view_op.set_fullscreen true (some 1)), (1, view_op.move 5 5),
          (1, view_op.maximize false)]).view 1).fullscreen_output ≠ none ∧
    ((run_view_ops (fun _ => immediate_hooks) maximize_desktop
        [(1, view_op.rotate (1 / 4)), (1, view_op.maximize true),
          (1, view_op.set_fullscreen true (some 1)), (1, view_op.move 5 5),
          (1, view_op.maximize false)]).view 1).rotation = 0 :=
  ⟨by decide!,
   rotation_zero_while_maximized_or_fullscreen (fun _ => immediate_hooks) maximize_desktop
    [(1, view_op.rotate (1 / 4)), (1, view_op.maximize true),
      (1, view_op.set_fullscreen true (some 1)), (1, view_op.move 5 5),
      (1, view_op.maximize false)]
    (fun _ => immediate_hooks_keep_state) maximize_desktop_fresh (by decide!) 1
    (Or.inr (by decide!))⟩

/-- C3 as stated fails: after `view_maximize(view, true)` a call of
`view_rotate(view, 1/2)` leaves the view maximized with rotation 1/2. -/
theorem rotation_while_maximized_counterexample :
    ((run_view_ops (fun _ => no_hooks) maximize_desktop
        [(1, view_op.maximize true), (1, view_op.rotate (1 / 2))]).view 1).maximized = true ∧
    ((run_view_ops (fun _ => no_hooks) maximize_desktop
        [(1, view_op.maximize true), (1, view_op.rotate (1 / 2))]).view 1).rotation ≠ 0 := by
  decide!

/-! ## Enter/leave parity -/

/-- The balance of a concatenated log. -/
theorem enter_leave_balance_append (l1 l2 : List surface_event) (o : Nat) :
    enter_leave_balance (l1 ++ l2) o = enter_leave_balance l1 o + enter_leave_balance l2 o := by
  unfold enter_leave_balance
  rw [List.count_append, List.count_append]
  push_cast
  ring

/-- The balance of what one binding sends. -/
theorem enter_leave_balance_step (layout : wlr_output_layout) (before : Option wlr_box)
    (box : wlr_box) (out : roots_output) (o : Nat) :
    enter_leave_balance (view_update_output_step_sent layout before box out) o =
      if out.wlr_output = o then
        transition_balance (intersected_before layout before o) (layout.intersects (some o) box)
      else 0 := by
  unfold view_update_output_step_sent view_update_output_step wlr_surface_send_enter
    wlr_surface_send_leave enter_leave_balance transition_balance intersected_before
  by_cases ho : out.wlr_output = o
  · subst ho
    rw [if_pos rfl]
    cases before with
    | none =>
      cases h2 : layout.intersects (some out.wlr_output) box <;> simp [h2]
    | some b =>
      cases h1 : layout.intersects (some out.wlr_output) b <;>
        cases h2 : layout.intersects (some out.wlr_output) box <;> simp [h1, h2]
  · rw [if_neg ho]
    have ho' : ¬ o = out.wlr_output := fun h => ho h.symm
    cases before with
    | none =>
      cases h2 : layout.intersects (some out.wlr_output) box <;>
        simp [h2, ho, ho', List.count_cons]
    | some b =>
      cases h1 : layout.intersects (some out.wlr_output) b <;>
        cases h2 : layout.intersects (some out.wlr_output) box <;>
        simp [h1, h2, ho, ho', List.count_cons]

/-- The balance of what the loop sends, when no two bindings are for the same
output. -/
theorem enter_leave_balance_sent (d : roots_desktop) (before : Option wlr_box) (box : wlr_box)
    (ps : List Nat) (o : Nat) (hnd : (ps.map (fun p => (d.output p).wlr_output)).Nodup) :
    enter_leave_balance (view_update_output_sent d before box ps) o =
      if o ∈ ps.map (fun p => (d.output p).wlr_output) then
        transition_balance (intersected_before d.layout before o)
          (d.layout.intersects (some o) box)
      else 0 := by
  induction ps with
  | nil => simp [view_update_output_sent, enter_leave_balance]
  | cons q rest ih =>
    rw [List.map_cons, List.nodup_cons] at hnd
    rw [view_update_output_sent, enter_leave_balance_append, enter_leave_balance_step,
      ih hnd.2]
    by_cases hq : (d.output q).wlr_output = o
    · have hnot : o ∉ rest.map (fun p => (d.output p).wlr_output) := by
        rw [← hq]; exact hnd.1
      have hin : o ∈ (q :: rest).map (fun p => (d.output p).wlr_output) := by
        rw [List.map_cons, List.mem_cons]; exact Or.inl hq.symm
      rw [if_pos hq, if_neg hnot, if_pos hin, add_zero]
    · rw [if_neg hq, zero_add]
      by_cases hmem : o ∈ rest.map (fun p => (d.output p).wlr_output)
      · have hin : o ∈ (q :: rest).map (fun p => (d.output p).wlr_output) := by
          rw [List.map_cons, List.mem_cons]; exact Or.inr hmem
        rw [if_pos hmem, if_pos hin]
      · have hout : o ∉ (q :: rest).map (fun p => (d.output p).wlr_output) := by
          rw [List.map_cons, List.mem_cons]
          rintro (h | h)
          · exact hq h.symm
          · exact hmem h
        rw [if_neg hmem, if_neg hout]

/-- Evaluating the intersections against the box the log agrees with makes the
log agree with the current box.  The record `w` is the view after the
geometry change, `v` the view before it; the change did not touch the log. -/
theorem view_update_output_parity (d : roots_desktop) (v w : roots_view)
    (hnd : (d.outputs.map (fun p => (d.output p).wlr_output)).Nodup)
    (hlog : w.wlr_surface.events = v.wlr_surface.events) (hv : parity_holds d v) :
    parity_holds d (view_update_output d w (some (view_get_box v))) := by
  intro p hp
  have hbox : view_get_box (view_update_output d w (some (view_get_box v))) = view_get_box w :=
    rfl
  rw [view_update_output_events, enter_leave_balance_append, hlog, hv p hp,
    enter_leave_balance_sent d _ _ _ _ hnd, if_pos (List.mem_map_of_mem _ hp), hbox]
  unfold transition_balance intersected_before
  cases h1 : d.layout.intersects (some (d.output p).wlr_output) (view_get_box v) <;>
    cases h2 : d.layout.intersects (some (d.output p).wlr_output) (view_get_box w) <;>
    simp [h1, h2]

/-- The first evaluation, with no before box, makes an empty log agree with the
box of the view. -/
theorem view_update_output_first_parity (d : roots_desktop) (v : roots_view)
    (hnd : (d.outputs.map (fun p => (d.output p).wlr_output)).Nodup)
    (hlog : v.wlr_surface.events = []) :
    parity_holds d (view_update_output d v none) := by
  intro p hp
  have hbox : view_get_box (view_update_output d v none) = view_get_box v := rfl
  rw [view_update_output_events, enter_leave_balance_append, hlog,
    enter_leave_balance_sent d _ _ _ _ hnd, if_pos (List.mem_map_of_mem _ hp), hbox]
  unfold transition_balance intersected_before enter_leave_balance
  cases h2 : d.layout.intersects (some (d.output p).wlr_output) (view_get_box v) <;> simp [h2]

/-- The function `view_move` keeps the parity of enter and leave events, when
no two bindings are for the same output and the move callback of the shell, if
any, sends no events itself. -/
theorem view_move_parity (d : roots_desktop) (hk : view_interface) (v : roots_view) (x y : ℚ)
    (hnd : (d.outputs.map (fun p => (d.output p).wlr_output)).Nodup)
    (hlog : ∀ f, hk.move = some f →
      ∀ u a b, (f u a b).wlr_surface.events = u.wlr_surface.events)
    (hv : parity_holds d v) : parity_holds d (view_move d hk v x y) := by
  unfold view_move
  split_ifs with hxy
  · exact hv
  · cases hm : hk.move with
    | none =>
      refine view_update_output_parity d v _ hnd ?_ hv
      unfold view_update_position
      rw [if_neg hxy]
    | some f => exact view_update_output_parity d v _ hnd (hlog f hm v x y) hv

/-- The function `view_resize` keeps the parity of enter and leave events,
when no two bindings are for the same output and the resize callback of the
shell, if any, sends no events itself. -/
theorem view_resize_parity (d : roots_desktop) (hk : view_interface) (v : roots_view)
    (width height : Nat)
    (hnd : (d.outputs.map (fun p => (d.output p).wlr_output)).Nodup)
    (hlog : ∀ f, hk.resize = some f →
      ∀ u a b, (f u a b).wlr_surface.events = u.wlr_surface.events)
    (hv : parity_holds d v) : parity_holds d (view_resize d hk v width height) := by
  unfold view_resize
  cases hm : hk.resize with
  | none => exact view_update_output_parity d v _ hnd rfl hv
  | some f => exact view_update_output_parity d v _ hnd (hlog f hm v width height) hv

/-- The function `view_move_resize` keeps the parity of enter and leave events
when the shell has no move-resize callback (the request then goes through
`view_resize`), under the conditions of `view_resize_parity`. -/
theorem view_move_resize_parity (d : roots_desktop) (hk : view_interface) (v : roots_view)
    (x y : ℚ) (width height : Nat)
    (hnd : (d.outputs.map (fun p => (d.output p).wlr_output)).Nodup)
    (hnone : hk.move_resize = none)
    (hlog : ∀ f, hk.resize = some f →
      ∀ u a b, (f u a b).wlr_surface.events = u.wlr_surface.events)
    (hv : parity_holds d v) : parity_holds d (view_move_resize d hk v x y width height) := by
  by_cases hxy : x = v.x ∧ y = v.y
  · rw [view_move_resize_same_position d hk v x y width height hxy.1 hxy.2]
    exact view_resize_parity d hk v width height hnd hlog hv
  · rw [view_move_resize_pending d hk v x y width height hxy hnone]
    exact view_resize_parity d hk _ width height hnd hlog hv

/-- C10 (the code at the failing input): two outputs side by side, a new view
of 200 by 200 at (0, 0), the cursor on output 2.  `view_setup` centers the view
on output 2 through `view_move`, which sends a leave for output 1 and an enter
for output 2, and then evaluates the intersections with no before box, which
sends the enter for output 2 again: enters minus leaves is -1 for output 1,
which the view does not intersect, and 2 for output 2, which it does. -/
theorem view_setup_enter_leave_balance :
    (view_setup setup_desktop no_hooks (setup_desktop.view 1)).wlr_surface.events =
      [surface_event.leave 1, surface_event.enter 2, surface_event.enter 2] ∧
    setup_desktop.layout.intersects (some 1)
      (view_get_box (view_setup setup_desktop no_hooks (setup_desktop.view 1))) = false ∧
    enter_leave_balance
      (view_setup setup_desktop no_hooks (setup_desktop.view 1)).wlr_surface.events 1 = -1 ∧
    setup_desktop.layout.intersects (some 2)
      (view_get_box (view_setup setup_desktop no_hooks (setup_desktop.view 1))) = true ∧
    enter_leave_balance
      (view_setup setup_desktop no_hooks (setup_desktop.view 1)).wlr_surface.events 2 = 2 := by
  decide!

/-! ## Decoration box -/

/-- The decoration box of the sample decorated view. -/
theorem view_get_deco_box_sample :
    view_get_deco_box deco_view = { x := 46, y := 26, width := 208, height := 128 } := by
  decide!

/-! ## Fullscreen linkage, from the binding to the view -/

/-- The layout-shrink scenario evaluated: the stray view of 200 by 200 ends at
(412, 284), the view at (900, 100), which still intersects the output, stays. -/
theorem handle_layout_change_sample :
    ((handle_layout_change (fun _ => no_hooks) shrunk_desktop).view 1).x = 412 ∧
    ((handle_layout_change (fun _ => no_hooks) shrunk_desktop).view 1).y = 284 ∧
    ((handle_layout_change (fun _ => no_hooks) shrunk_desktop).view 2).x = 900 ∧
    ((handle_layout_change (fun _ => no_hooks) shrunk_desktop).view 2).y = 100 := by
  decide!

/-- C11, at a view of odd size: the view of 201 by 201 at (5000, 100), without
shell callbacks, intersects no output of the layout, whose center output is the
only output, of 1920 by 1080.  `handle_layout_change` moves it to (860, 440)
and not to `(center_x - width/2, center_y - height/2)` = (859.5, 439.5): it
halves the integers `box.width` and `box.height` before the conversion to
`double`.  `view_center`, on the same view with the cursor on that output,
converts first and puts the view at (859.5, 439.5). -/
theorem handle_layout_change_odd_size :
    stray_desktop.layout.get_center_output = some 1 ∧
    stray_desktop.layout.get_box (some 1) = { x := 0, y := 0, width := 1920, height := 1080 } ∧
    view_get_box (stray_desktop.view 1) = { x := 5000, y := 100, width := 201, height := 201 } ∧
    stray_desktop.layout.intersects none (view_get_box (stray_desktop.view 1)) = false ∧
    ((handle_layout_change (fun _ => no_hooks) stray_desktop).view 1).x = 860 ∧
    ((handle_layout_change (fun _ => no_hooks) stray_desktop).view 1).y = 440 ∧
    ((handle_layout_change (fun _ => no_hooks) stray_desktop).view 1).x ≠
      ((stray_desktop.layout.get_box (some 1)).x : ℚ) +
          ((stray_desktop.layout.get_box (some 1)).width : ℚ) / 2 -
        ((stray_desktop.view 1).width : ℚ) / 2 ∧
    ((handle_layout_change (fun _ => no_hooks) stray_desktop).view 1).y ≠
      ((stray_desktop.layout.get_box (some 1)).y : ℚ) +
          ((stray_desktop.layout.get_box (some 1)).height : ℚ) / 2 -
        ((stray_desktop.view 1).height : ℚ) / 2 ∧
    (view_center stray_desktop no_hooks (stray_desktop.view 1)).2.x = 1719 / 2 ∧
    (view_center stray_desktop no_hooks (stray_desktop.view 1)).2.y = 879 / 2 := by
  decide!

/-! ## Entering the maximized state -/

end Rootston

namespace Xwayland

/-! # Theorems on the X bridge -/

/-! ## The command line of the child -/

/-- With all allocations succeeding, the four `fill_arg` calls of
`exec_xwayland` turn the array into the command line of the spec. -/
theorem exec_xwayland_eq (os : child_results) (x : wlr_xwayland)
    (hmalloc : ∀ n, os.malloc_ok n = true) :
    exec_xwayland os x =
      if !os.fcntl_ok x.x_fd.1 || !os.fcntl_ok x.x_fd.2 || !os.fcntl_ok x.wm_fd.2 ||
          !os.fcntl_ok x.wl_fd.2 then child_end.exit_failure
      else
        match os.xdg_runtime_dir with
        | none => child_end.exit_failure
        | some xdg_runtime =>
          if !os.clearenv_ok then child_end.exit_failure
          else
            child_end.execvp "Xwayland" (spec_argv x.display x.x_fd.1 x.x_fd.2 x.wm_fd.2)
              [("XDG_RUNTIME_DIR", xdg_runtime), ("WAYLAND_SOCKET", format_d x.wl_fd.2)] := by
  have hlen : ∀ s : String, ¬ ((s.length : Int) < 0) := fun s => not_lt.2 (Int.natCast_nonneg _)
  unfold exec_xwayland
  simp only [hmalloc, fill_arg, next_null, Option.map, List.set, hlen, if_true, if_false,
    spec_argv]

/-- C14: when no allocation fails, whatever `exec_xwayland` passes to `execvp`
is the file `Xwayland` with the argument array
`Xwayland :<display> -rootless -terminate -listen <x_fd[0]> -listen <x_fd[1]>
-wm <wm_fd[1]>` and the terminating `NULL`, the numbers printed with `%d`; and
when the other calls succeed as well, `execvp` is reached. -/
theorem exec_xwayland_argv (os : child_results) (x : wlr_xwayland)
    (hmalloc : ∀ n, os.malloc_ok n = true) :
    (∀ file argv env, exec_xwayland os x = child_end.execvp file argv env →
      file = "Xwayland" ∧ argv = spec_argv x.display x.x_fd.1 x.x_fd.2 x.wm_fd.2) ∧
    ((∀ fd, os.fcntl_ok fd = true) → os.clearenv_ok = true →
      ∀ xdg_runtime, os.xdg_runtime_dir = some xdg_runtime →
        exec_xwayland os x =
          child_end.execvp "Xwayland" (spec_argv x.display x.x_fd.1 x.x_fd.2 x.wm_fd.2)
            [("XDG_RUNTIME_DIR", xdg_runtime), ("WAYLAND_SOCKET", format_d x.wl_fd.2)]) := by
  rw [exec_xwayland_eq os x hmalloc]
  constructor
  · intro file argv env h
    by_cases hf : (!os.fcntl_ok x.x_fd.1 || !os.fcntl_ok x.x_fd.2 || !os.fcntl_ok x.wm_fd.2 ||
        !os.fcntl_ok x.wl_fd.2) = true
    · rw [if_pos hf] at h
      exact child_end.noConfusion h
    · rw [if_neg hf] at h
      cases hx : os.xdg_runtime_dir with
      | none =>
        rw [hx] at h
        exact child_end.noConfusion h
      | some xdg =>
        rw [hx] at h
        by_cases hc : (!os.clearenv_ok) = true
        · simp only [hc, if_true] at h
          exact child_end.noConfusion h
        · simp only [hc, if_false] at h
          cases h
          exact ⟨rfl, rfl⟩
  · intro hf hc xdg hx
    simp [hf, hc, hx]

/-- C14, for display 1, listening descriptors 3 and 4 and window-manager
descriptor 8, every call succeeding. -/
theorem exec_xwayland_argv_witness :
    (∀ file argv env, exec_xwayland good_child child_xwayland = child_end.execvp file argv env →
      file = "Xwayland" ∧
        argv = spec_argv child_xwayland.display child_xwayland.x_fd.1 child_xwayland.x_fd.2
          child_xwayland.wm_fd.2) ∧
    exec_xwayland good_child child_xwayland =
      child_end.execvp "Xwayland"
        (spec_argv child_xwayland.display child_xwayland.x_fd.1 child_xwayland.x_fd.2
          child_xwayland.wm_fd.2)
        [("XDG_RUNTIME_DIR", "/run/user/1000"),
          ("WAYLAND_SOCKET", format_d child_xwayland.wl_fd.2)] :=
  ⟨(exec_xwayland_argv good_child child_xwayland (fun _ => rfl)).1,
   (exec_xwayland_argv good_child child_xwayland (fun _ => rfl)).2 (fun _ => rfl) rfl
      "/run/user/1000" rfl⟩

/-- The command line of the witness, printed: the numbers are in decimal. -/
theorem spec_argv_sample :
    spec_argv 1 3 4 8 =
      [some "Xwayland", some ":1", some "-rootless", some "-terminate", some "-listen",
        some "3", some "-listen", some "4", some "-wm", some "8", none] ∧
    format_d 1234 = "1234" ∧ format_d (-1) = "-1" := by
  decide!

/-- A failed allocation ends the child before `execvp`: here the second one. -/
theorem exec_xwayland_malloc_failure :
    exec_xwayland { good_child with malloc_ok := fun n => decide (n ≠ 1) } child_xwayland =
      child_end.exit_failure := by
  decide!

/-! ## Teardown and restart -/

/-- Closing a descriptor touches the list of closed descriptors only. -/
theorem safe_close_other (w : bridge_world) (fd : Int) :
    (safe_close w fd).calls = w.calls ∧
    (safe_close w fd).display_destroy_linked = w.display_destroy_linked := by
  unfold safe_close
  split_ifs <;> exact ⟨rfl, rfl⟩

/-- The function `wlr_xwayland_finish` logs its call, keeps `server_start`, and
leaves the display number at -1. -/
theorem wlr_xwayland_finish_effect (x : wlr_xwayland) (w : bridge_world) :
    (wlr_xwayland_finish x w).2.calls = w.calls ++ [bridge_call.finish] ∧
    (wlr_xwayland_finish x w).1.server_start = x.server_start ∧
    (wlr_xwayland_finish x w).1.display = -1 := by
  unfold wlr_xwayland_finish
  by_cases hd : x.display = -1
  · rw [if_pos hd]
    exact ⟨rfl, rfl, hd⟩
  · rw [if_neg hd]
    refine ⟨?_, rfl, rfl⟩
    simp only [(safe_close_other _ _).1]
    cases x.cursor <;> cases x.xwm <;> cases x.client <;> cases x.sigusr1_source <;> rfl

/-- The function `wlr_xwayland_finish` unlinks the display-destroy listener
unless the display number is -1, in which case it leaves the world alone. -/
theorem wlr_xwayland_finish_listener (x : wlr_xwayland) (w : bridge_world) :
    (wlr_xwayland_finish x w).2.display_destroy_linked =
      if x.display = -1 then w.display_destroy_linked else false := by
  unfold wlr_xwayland_finish
  by_cases hd : x.display = -1
  · rw [if_pos hd, if_pos hd]
  · rw [if_neg hd, if_neg hd]

/-- The function `wlr_xwayland_start` logs its call first; a failed start calls
`wlr_xwayland_finish` once, a successful one does not. -/
theorem wlr_xwayland_start_calls (os : start_results) (x : wlr_xwayland) (w : bridge_world) :
    (wlr_xwayland_start os x w).2.2.calls =
      w.calls ++ bridge_call.start ::
        (if (wlr_xwayland_start os x w).1 = true then [] else [bridge_call.finish]) := by
  have hf := fun x w => (wlr_xwayland_finish_effect x w).1
  unfold wlr_xwayland_start
  by_cases h1 : os.open_display_sockets.1 < 0
  · simp [h1, hf]
  · cases h2 : os.socketpair_wl with
    | none => simp [h1, hf]
    | some wl =>
      cases h3 : os.socketpair_wm with
      | none => simp [h1, hf]
      | some wm =>
        cases h4 : os.client with
        | none => simp [h1, hf]
        | some c =>
          cases h5 : os.fork with
          | none => simp [h1, hf]
          | some pid => simp [h1]

/-- C13 (amended): when the Wayland client of the bridge is destroyed, the bridge
is finished, and then restarted if and only if more than 5 seconds (of `time`)
lie between `server_start` and the destroy event; otherwise nothing follows the
finish and the bridge stays down, with display number -1. -/
theorem handle_client_destroy_restarts (os : start_results) (now : Int) (x : wlr_xwayland)
    (w : bridge_world) :
    ∃ rest, (handle_client_destroy os now x w).2.calls =
        w.calls ++ bridge_call.finish :: rest ∧
      (rest.head? = some bridge_call.start ↔ now - x.server_start > 5) ∧
      (¬ (now - x.server_start > 5) →
        rest = [] ∧ (handle_client_destroy os now x w).1.display = -1) := by
  obtain ⟨hc, hs, hdsp⟩ := wlr_xwayland_finish_effect { x with client := none }
    { w with client_destroy_linked := false }
  unfold handle_client_destroy
  simp only []
  rw [hs]
  by_cases h : now - x.server_start > 5
  · rw [if_pos h]
    obtain ⟨tail, htail⟩ : ∃ tail,
        (wlr_xwayland_start os
          (wlr_xwayland_finish { x with client := none }
            { w with client_destroy_linked := false }).1
          (wlr_xwayland_finish { x with client := none }
            { w with client_destroy_linked := false }).2).2.2.calls =
          (wlr_xwayland_finish { x with client := none }
            { w with client_destroy_linked := false }).2.calls ++ bridge_call.start :: tail :=
      ⟨_, wlr_xwayland_start_calls os _ _⟩
    refine ⟨bridge_call.start :: tail, ?_, ?_, fun hn => absurd h hn⟩
    · rw [htail, hc, List.append_assoc]
      rfl
    · simp [h]
  · rw [if_neg h]
    exact ⟨[], hc, by simp [h], fun _ => ⟨rfl, hdsp⟩⟩

/-- C13 (amended), for the bridge started at time 100 whose client is destroyed
at time 110. -/
theorem handle_client_destroy_restarts_witness :
    ∃ rest, (handle_client_destroy (good_results 110) 110 running_bridge.1
        running_bridge.2).2.calls = running_bridge.2.calls ++ bridge_call.finish :: rest ∧
      (rest.head? = some bridge_call.start ↔ 110 - running_bridge.1.server_start > 5) ∧
      (¬ (110 - running_bridge.1.server_start > 5) →
        rest = [] ∧
          (handle_client_destroy (good_results 110) 110 running_bridge.1
            running_bridge.2).1.display = -1) :=
  handle_client_destroy_restarts (good_results 110) 110 running_bridge.1 running_bridge.2

/-- The restart scenario evaluated: the bridge is started at time 100; a client
destroy at 110 gives finish and start again, one at 102 gives finish only. -/
theorem handle_client_destroy_sample :
    running_bridge.2.calls = [bridge_call.start] ∧
    (handle_client_destroy (good_results 110) 110 running_bridge.1 running_bridge.2).2.calls =
      [bridge_call.start, bridge_call.finish, bridge_call.start] ∧
    (handle_client_destroy (good_results 102) 102 running_bridge.1 running_bridge.2).2.calls =
      [bridge_call.start, bridge_call.finish] := by
  decide!

/-- C13 as stated fails at exactly 5 seconds: the bridge started at time 100
whose client is destroyed at time 105 is finished and not restarted, although
5 seconds have elapsed. -/
theorem handle_client_destroy_counterexample :
    105 - running_bridge.1.server_start ≥ 5 ∧
    (handle_client_destroy (good_results 105) 105 running_bridge.1 running_bridge.2).2.calls =
      [bridge_call.start, bridge_call.finish] ∧
    (handle_client_destroy (good_results 105) 105 running_bridge.1 running_bridge.2).1.display
      = -1 := by
  decide!

/-! ## Failed starts and the display-destroy listener -/

/-- When `wlr_xwayland_create` fails, the display-destroy listener of the freed
record is still linked exactly when `open_display_sockets` returned -1: on
every other failure path `wlr_xwayland_finish` unlinks it. -/
theorem wlr_xwayland_create_failure_listener (os : start_results) (w : bridge_world)
    (hfail : (wlr_xwayland_create os w).1 = none) :
    (wlr_xwayland_create os w).2.display_destroy_linked = true ↔
      os.open_display_sockets.1 = -1 := by
  have hl := wlr_xwayland_finish_listener
  unfold wlr_xwayland_create wlr_xwayland_start at hfail ⊢
  by_cases h1 : os.open_display_sockets.1 < 0
  · simp [h1, hl]
  · have hne : ¬ os.open_display_sockets.1 = -1 := by
      intro h
      rw [h] at h1
      exact h1 (by decide)
    cases h2 : os.socketpair_wl with
    | none => simp [h1, hl, hne]
    | some wl =>
      cases h3 : os.socketpair_wm with
      | none => simp [h1, hl, hne]
      | some wm =>
        cases h4 : os.client with
        | none => simp [h1, hl, hne]
        | some c =>
          cases h5 : os.fork with
          | none => simp [h1, hl, hne]
          | some pid => simp [h1, h2, h3, h4, h5] at hfail

/-- C15 (the code at the failing input): when `open_display_sockets` finds no
free display and returns -1, `wlr_xwayland_start` has linked the display-destroy
listener, `wlr_xwayland_finish` returns at once because the display number is
-1, and `wlr_xwayland_create` frees the record and returns `NULL` with the
listener still linked. -/
theorem wlr_xwayland_create_no_display :
    (wlr_xwayland_create no_display_results fresh_world).1 = none ∧
    (wlr_xwayland_create no_display_results fresh_world).2.display_destroy_linked = true ∧
    (wlr_xwayland_create no_display_results fresh_world).2.calls =
      [bridge_call.start, bridge_call.finish] := by
  decide!

/-- The other failure paths unlink the listener: a failed `socketpair`, a failed
`wl_client_create` and a failed `fork`. -/
theorem wlr_xwayland_create_other_failures :
    (wlr_xwayland_create { good_results 0 with socketpair_wl := none }
      fresh_world).2.display_destroy_linked = false ∧
    (wlr_xwayland_create { good_results 0 with socketpair_wm := none }
      fresh_world).2.display_destroy_linked = false ∧
    (wlr_xwayland_create { good_results 0 with client := none }
      fresh_world).2.display_destroy_linked = false ∧
    (wlr_xwayland_create { good_results 0 with fork := none }
      fresh_world).2.display_destroy_linked = false := by
  decide!

end Xwayland
